import Mathlib

/-!
Verification of the Canvas service-to-service block execution gateway.

This file gives a shallow embedding, in Lean, of the gateway's TypeScript
source (the Canvas integration routes of the Sim application: service-key
authentication, rate limiting, user provisioning, block execution with
idempotent replay, and execution status polling), together with theorems
settling the behavioural claims about it.

Modelling conventions:
- JavaScript values flowing through untyped object payloads are modelled by
  the `JsonVal` inductive; objects are association lists (first key wins on
  lookup, insertion preserves position of existing keys, as in JS).
- Database tables are lists of row structures; a `SELECT ... LIMIT 1` is the
  first matching row in list order.
- Asynchronous effects are sequentialised: each request handler is modelled
  as a pure function from (environment, store, request) to
  (response, new store), plus ghost observations (the execution id it used
  and the number of engine attempts it performed).
- External collaborators that are not part of the reviewed source (the block
  catalog, the tool executor, `JSON.parse`, `crypto.randomUUID`, the
  redaction helper, the token-bucket storage adapter) are oracle parameters
  in an environment structure.
-/

namespace Canvas

/-- JSON-like runtime value (JS values flowing through the gateway). -/
inductive JsonVal where
  | null
  | bool (b : Bool)
  | num (q : ℚ)
  | str (s : String)
  | arr (items : List JsonVal)
  | obj (fields : List (String × JsonVal))
deriving Repr

/-- A JS object: ordered association list of fields. -/
abbrev Obj := List (String × JsonVal)

/-- Property access `o[k]`: first binding of the key, `none` = undefined. -/
def getField (o : Obj) (k : String) : Option JsonVal :=
  (o.find? (fun p => p.1 = k)).map (fun p => p.2)

/-- Property assignment `o[k] = v` with JS key-order semantics: an existing
key keeps its position, a new key is appended. -/
def setField (o : Obj) (k : String) (v : JsonVal) : Obj :=
  if (o.find? (fun p => p.1 = k)).isSome then
    o.map (fun p => if p.1 = k then (k, v) else p)
  else o ++ [(k, v)]

/-- Object spread `\x7b...a, ...b\x7d`: fields of `b` assigned over `a` in order. -/
def mergeObj (a b : Obj) : Obj :=
  b.foldl (fun acc p => setField acc p.1 p.2) a

/-- JS truthiness of a value. -/
def truthy : JsonVal → Bool
  | .null => false
  | .bool b => b
  | .num q => q ≠ 0
  | .str s => s ≠ ""
  | .arr _ => true
  | .obj _ => true

/-! String helpers modelling the JS string operations used by the source. -/

/-- JS regex word character class (ASCII letters, digits, underscore). -/
def isWordChar (c : Char) : Bool := c.isAlphanum || c = '_'

/-- Does `pat` occur in `hay` starting at index `i`? -/
def matchAt (hay pat : List Char) (i : Nat) : Bool :=
  decide ((hay.drop i).take pat.length = pat)

/-- Does `pat` occur in `hay` starting at `i`, with regex word boundaries on
both sides (the characters adjacent to the match, if any, are non-word)? -/
def boundedMatchAt (hay pat : List Char) (i : Nat) : Bool :=
  matchAt hay pat i
    && (decide (i = 0) || !(isWordChar (hay.getD (i - 1) ' ')))
    && (decide (hay.length ≤ i + pat.length) || !(isWordChar (hay.getD (i + pat.length) ' ')))

/-- Word-bounded containment: models a case-sensitive test of the regex
`\bpat\b` against `hay` (the source lowercases first for `/i`). -/
def hasBoundedToken (hay pat : List Char) : Bool :=
  (List.range (hay.length + 1)).any (boundedMatchAt hay pat)

/-- Plain substring containment (models `String.prototype.includes`). -/
def containsSub (hay pat : List Char) : Bool :=
  (List.range (hay.length + 1)).any (matchAt hay pat)

/-- Lowercase a string character-wise (models `toLowerCase` on ASCII). -/
def jsToLower (s : String) : String := String.mk (s.toList.map Char.toLower)

/-- Strip leading and trailing whitespace (models `String.prototype.trim`). -/
def jsTrim (s : String) : String :=
  String.mk
    (((s.toList.dropWhile Char.isWhitespace).reverse.dropWhile
      Char.isWhitespace).reverse)

/-- Does `s` start with `p`? (models `String.prototype.startsWith`). -/
def jsStartsWith (s p : String) : Bool :=
  decide (s.toList.take p.toList.length = p.toList)

/-- JS `Number(s)` restricted to the decimal forms the gateway ever meets:
optional sign, digits, optional fractional part. Other inputs give `none`
(modelling NaN, which the source discards via `Number.isFinite`). -/
def parseDecimal (s : String) : Option ℚ :=
  let core (l : List Char) : Option ℚ :=
    let intPart := l.takeWhile Char.isDigit
    let rest := l.dropWhile Char.isDigit
    let readNat (ds : List Char) : Nat :=
      ds.foldl (fun acc c => acc * 10 + (c.toNat - 48)) 0
    match rest with
    | [] =>
      if intPart.isEmpty then none
      else some ((readNat intPart : ℚ))
    | '.' :: frac =>
      if frac.all Char.isDigit && !(intPart.isEmpty && frac.isEmpty) then
        some ((readNat intPart : ℚ) + (readNat frac : ℚ) / ((10 : ℚ) ^ frac.length))
      else none
    | _ => none
  match s.toList with
  | '-' :: l => (core l).map (fun q => -q)
  | '+' :: l => core l
  | l => core l

/-! Uniform response envelope (responses.ts): success responses carry a
success flag and a data payload; error responses carry a message, a stable
code, optional details and an optional retry-after hint. -/

inductive ApiResponse (α : Type) where
  | success (status : Nat) (data : α)
  | error (status : Nat) (code : String) (message : String)
      (details : Option JsonVal) (retryAfter : Option ℚ)
deriving Repr

/-- Embeds `singleResponse(data, status)`. -/
def singleResponse {α : Type} (data : α) (status : Nat) : ApiResponse α :=
  .success status data

/-- Embeds `errorResponse(code, message, status, details?, retryAfter?)`. -/
def errorResponse {α : Type} (code message : String) (status : Nat)
    (details : Option JsonVal) (retryAfter : Option ℚ) : ApiResponse α :=
  .error status code message details retryAfter

/-- Embeds `badRequestResponse(message, details?)`. -/
def badRequestResponse {α : Type} (message : String) (details : Option JsonVal) :
    ApiResponse α :=
  errorResponse "INVALID_PARAMS" message 400 details none

/-- Embeds `internalErrorResponse(message)`. -/
def internalErrorResponse {α : Type} (message : String) : ApiResponse α :=
  errorResponse "INTERNAL_ERROR" message 500 none none

/-- Embeds `notFoundResponse(resource)`. -/
def notFoundResponse {α : Type} (resource : String) : ApiResponse α :=
  errorResponse "NOT_FOUND" (resource ++ " not found") 404 none none

/-- Embeds `userExistsResponse(message)`. -/
def userExistsResponse {α : Type} (message : String) : ApiResponse α :=
  errorResponse "USER_EXISTS" message 409 none none

/-! Service key authentication (auth.ts, `authenticateCanvasRequest`).
The SHA-256 hash and the database are oracle parameters: the select by
(key hash, service name) is the first matching row of the key table, and a
thrown database error is modelled by `dbError`. -/

/-- The `sim_svc_` key format marker (`SERVICE_KEY_PREFIX` in the source). -/
def serviceKeyFormatMarker : String := "sim_svc_"

/-- Canvas service identifier (`CANVAS_SERVICE_ID`). -/
def CANVAS_SERVICE_ID : String := "canvas"

/-- A row of the `service_api_keys` table (fields the authenticator reads). -/
structure ServiceKeyRecord where
  id : String
  keyHash : String
  keyPrefixVal : String
  serviceName : String
  permissions : JsonVal
  rateLimitPerMinute : Option Int
  rateLimitPerDay : Option Int
  isActive : Bool
  expiresAt : Option Nat
  metadata : Obj

/-- Authenticated service context handed to route handlers. -/
structure ServiceContext where
  serviceName : String
  keyId : String
  keyPrefixVal : String
  scopes : List String
  rateLimitPerMinute : Option Int
  rateLimitPerDay : Option Int
  metadata : Obj

/-- Result of `authenticateCanvasRequest`. -/
inductive AuthResult where
  | ok (context : ServiceContext)
  | failure (error : String) (code : String)

/-- Embeds `parseScopes`: a jsonb array keeps its string members; a string is
parsed as JSON first (`jsonParse` models `JSON.parse`, `none` = throw). -/
def parseScopes (jsonParse : String → Option JsonVal) : JsonVal → List String
  | .arr items => items.filterMap (fun v => match v with | .str s => some s | _ => none)
  | .str s =>
    match jsonParse s with
    | some (.arr items) =>
      items.filterMap (fun v => match v with | .str s => some s | _ => none)
    | _ => []
  | _ => []

/-- Embeds `authenticateCanvasRequest`. `hash` models SHA-256; `table` the
`service_api_keys` table; `dbError` a thrown error during the lookup (caught
by the outermost try); `now` the current time in ms. -/
def authenticateCanvasRequest (hash : String → String)
    (table : List ServiceKeyRecord) (dbError : Option String)
    (jsonParse : String → Option JsonVal)
    (providedKey : Option String) (requiredScopes : Option (List String))
    (now : Nat) : AuthResult :=
  match providedKey with
  | none =>
    .failure "Service API key required. Provide x-service-key header." "MISSING_KEY"
  | some key =>
    if ¬ (jsStartsWith key serviceKeyFormatMarker = true) then
      .failure "Invalid service API key format" "INVALID_KEY"
    else
      match dbError with
      | some _ => .failure "Authentication service error" "INTERNAL_ERROR"
      | none =>
        let keyHash := hash key
        match table.find? (fun r =>
            r.keyHash = keyHash ∧ r.serviceName = CANVAS_SERVICE_ID) with
        | none => .failure "Invalid service API key" "INVALID_KEY"
        | some keyRecord =>
          if ¬ keyRecord.isActive then
            .failure "Service API key is inactive" "INACTIVE_KEY"
          else if (match keyRecord.expiresAt with
                   | some t => decide (t < now) | none => false) then
            .failure "Service API key has expired" "EXPIRED_KEY"
          else
            let keyScopes := parseScopes jsonParse keyRecord.permissions
            let pass : AuthResult := .ok
              { serviceName := keyRecord.serviceName
                keyId := keyRecord.id
                keyPrefixVal := keyRecord.keyPrefixVal
                scopes := keyScopes
                rateLimitPerMinute := keyRecord.rateLimitPerMinute
                rateLimitPerDay := keyRecord.rateLimitPerDay
                metadata := keyRecord.metadata }
            match requiredScopes with
            | some rs =>
              if rs ≠ [] ∧ ¬ rs.all (fun s => keyScopes.contains s) then
                .failure
                  ("Insufficient permissions. Required scopes: " ++
                    String.intercalate ", " rs)
                  "INSUFFICIENT_SCOPE"
              else pass
            | none => pass

/-! Canvas rate limiting (`enforceCanvasRateLimit`): four token-bucket
checks in fixed order over an external storage adapter, failing closed. -/

def MINUTE_MS : Nat := 60 * 1000

def DAY_MS : Nat := 24 * 60 * 60 * 1000

structure TokenBucketConfig where
  maxTokens : Int
  refillRate : Int
  refillIntervalMs : Nat
deriving Repr, DecidableEq

structure RateLimitCheckResult where
  allowed : Bool
  retryAfterMs : Option ℚ
deriving Repr, DecidableEq

/-- The fields of the request context the rate limiter reads. -/
structure CanvasRequestContext where
  serviceName : String
  keyPrefixVal : String
  canvasUserId : Option String
  rateLimitPerMinute : Option Int
  rateLimitPerDay : Option Int

/-- Embeds `buildConfig`. -/
def buildConfig (limit : Int) (intervalMs : Nat) : TokenBucketConfig :=
  { maxTokens := limit, refillRate := limit, refillIntervalMs := intervalMs }

/-- Outcome of `storage.consumeTokens`. -/
structure ConsumeOutcome where
  allowed : Bool
  retryAfterMs : Option ℚ

/-- The external token-bucket storage adapter: key, token count, config;
`Except.error` models a thrown internal error. -/
abbrev StorageOracle := String → Nat → TokenBucketConfig → Except String ConsumeOutcome

/-- Embeds `consume`: a non-positive (or non-finite) limit skips the check;
otherwise one token is consumed from the bucket. -/
def consume (storage : StorageOracle) (key : String) (limit : Int)
    (intervalMs : Nat) : Except String RateLimitCheckResult :=
  if limit ≤ 0 then .ok { allowed := true, retryAfterMs := none }
  else do
    let r ← storage key 1 (buildConfig limit intervalMs)
    if r.allowed then return { allowed := true, retryAfterMs := none }
    else return { allowed := false, retryAfterMs := r.retryAfterMs }

/-- The `try` body of `enforceCanvasRateLimit`: the four bucket checks in
source order with short-circuiting. -/
def enforceCanvasRateLimitBody (storage : StorageOracle)
    (context : CanvasRequestContext) : Except String RateLimitCheckResult := do
  let serviceKey := "svc:" ++ context.serviceName ++ ":" ++ context.keyPrefixVal
  let userKey : Option String :=
    match context.canvasUserId with
    | some u => if u ≠ "" then some (serviceKey ++ ":user:" ++ u) else none
    | none => none
  let perMinute := context.rateLimitPerMinute.getD 1000
  let perDay := context.rateLimitPerDay.getD 100000
  let serviceMinute ← consume storage serviceKey perMinute MINUTE_MS
  if ¬ serviceMinute.allowed then return serviceMinute
  else do
    let serviceDay ← consume storage (serviceKey ++ ":day") perDay DAY_MS
    if ¬ serviceDay.allowed then return serviceDay
    else
      match userKey with
      | some uk => do
        let userMinute ← consume storage uk perMinute MINUTE_MS
        if ¬ userMinute.allowed then return userMinute
        else do
          let userDay ← consume storage (uk ++ ":day") perDay DAY_MS
          if ¬ userDay.allowed then return userDay
          else return { allowed := true, retryAfterMs := none }
      | none => return { allowed := true, retryAfterMs := none }

/-- Embeds `enforceCanvasRateLimit`: the catch arm fails closed with a
one-minute retry hint. -/
def enforceCanvasRateLimit (storage : StorageOracle)
    (context : CanvasRequestContext) : RateLimitCheckResult :=
  match enforceCanvasRateLimitBody storage context with
  | .ok r => r
  | .error _ => { allowed := false, retryAfterMs := some (MINUTE_MS : ℚ) }

/-! User provisioning (users/provision/route.ts). -/

/-- Canvas provider identifier (`CANVAS_PROVIDER_ID`). -/
def CANVAS_PROVIDER_ID : String := "canvas"

/-- Default usage limit for new Canvas-provisioned users. -/
def DEFAULT_CANVAS_USER_CREDITS : String := "1000000"

/-- Name-derivation delimiters: `.`, `_`, `-`. -/
def isDelim (c : Char) : Bool := c = '.' || c = '_' || c = '-'

/-- JS `localPart.split(/[._-]+/)`: each maximal nonempty run of delimiters
is one separator; boundary runs leave empty segments at the ends. A
delimiter followed by another delimiter extends the current separator run;
a delimiter at a run's end contributes one segment break. -/
def splitDelim : List Char → List (List Char)
  | [] => [[]]
  | c :: rest =>
    if isDelim c then
      match rest with
      | d :: _ =>
        if isDelim d then splitDelim rest else [] :: splitDelim rest
      | [] => [] :: splitDelim rest
    else
      match splitDelim rest with
      | [] => [[c]]
      | s :: ss => (c :: s) :: ss

/-- JS `segment.charAt(0).toUpperCase() + segment.slice(1)`. -/
def titleCaseSeg : List Char → List Char
  | [] => []
  | c :: rest => c.toUpper :: rest

/-- Embeds `deriveNameFromEmail`: title-case the delimiter-separated
segments of the email's local part, or fall back to a generic label. -/
def deriveNameFromEmail (email : String) : String :=
  let localPart := email.toList.takeWhile (fun c => c ≠ '@')
  if localPart.isEmpty then "Canvas User"
  else
    String.intercalate " "
      ((splitDelim localPart).map (fun seg => String.mk (titleCaseSeg seg)))

/-- A row of the `user` table. -/
structure UserRow where
  id : String
  name : String
  email : String
  emailVerified : Bool
  createdAt : Nat
deriving Repr, DecidableEq

/-- A row of the `account` table (an IdentityLink). The `scope` column holds
`JSON.stringify(metadata)`; it is modelled by the metadata object itself. -/
structure AccountRow where
  id : String
  accountId : String
  providerId : String
  userId : String
  scope : Obj
  createdAt : Nat

/-- A row of the `user_stats` table. -/
structure UserStatsRow where
  id : String
  userId : String
  currentUsageLimit : String
deriving Repr, DecidableEq

/-- A row of the `workspace` table. -/
structure WorkspaceRow where
  id : String
  name : String
  ownerId : String
  billedAccountUserId : String
  allowPersonalApiKeys : Bool
  createdAt : Nat
deriving Repr, DecidableEq

/-- A row of the `permissions` table. -/
structure PermissionRow where
  id : String
  entityType : String
  entityId : String
  userId : String
  permissionType : String
  createdAt : Nat
deriving Repr, DecidableEq

/-- A row of the `workflow` table (fields the provisioning path writes). -/
structure WorkflowRow where
  id : String
  userId : String
  workspaceId : String
  name : String
  description : String
  color : String
  isDeployed : Bool
  runCount : Nat
deriving Repr, DecidableEq

/-- The relational store seen by the provisioning route. -/
structure ProvisionDb where
  users : List UserRow
  accounts : List AccountRow
  userStats : List UserStatsRow
  workspaces : List WorkspaceRow
  permissions : List PermissionRow
  workflows : List WorkflowRow

/-- Environment for one provisioning request: `uuid n` is the value of the
(n+1)-th `crypto.randomUUID()` call, `now` the request timestamp. -/
structure ProvisionEnv where
  uuid : Nat → String
  now : Nat

/-- A parsed provisioning request body (validation is type-level here). -/
structure ProvisionRequest where
  canvasUserId : String
  email : String
  name : Option String
  workspaceId : Option String
  metadata : Option Obj

/-- The provisioning response payload. -/
structure UserProvisioningResponseData where
  simUserId : String
  canvasUserId : String
  email : String
  createdAt : Nat
  linkId : String
  alreadyExisted : Option Bool
deriving Repr, DecidableEq

/-- The row shape selected by `findExistingCanvasLink`. -/
structure CanvasLinkView where
  linkId : String
  userId : String
  createdAt : Nat
  email : String
deriving Repr, DecidableEq

/-- The per-account step of the `account`-with-`user` inner join used by
`findExistingCanvasLink`: an account row contributes a joined row exactly
when it matches (external id, canvas provider) and its user id resolves. -/
def canvasLinkJoin (users : List UserRow) (canvasUserId : String)
    (a : AccountRow) : Option CanvasLinkView :=
  if a.accountId = canvasUserId ∧ a.providerId = CANVAS_PROVIDER_ID then
    (users.find? (fun u => u.id = a.userId)).map (fun u =>
      { linkId := a.id, userId := a.userId, createdAt := a.createdAt
        email := u.email })
  else none

/-- Embeds `findExistingCanvasLink`: first row of `account` inner-joined
with `user` on the account's user id, filtered by (external id, provider). -/
def findExistingCanvasLink (db : ProvisionDb) (canvasUserId : String) :
    Option CanvasLinkView :=
  db.accounts.findSome? (canvasLinkJoin db.users canvasUserId)

/-- Embeds `findUserByEmail`. -/
def findUserByEmail (db : ProvisionDb) (email : String) : Option UserRow :=
  db.users.find? (fun u => u.email = email)

/-- Embeds `createCanvasAccountLink` (called with a fresh `linkId`). -/
def createCanvasAccountLink (db : ProvisionDb) (userId canvasUserId : String)
    (metadata : Obj) (linkId : String) (now : Nat) : ProvisionDb :=
  { db with accounts := db.accounts ++
      [{ id := linkId, accountId := canvasUserId, providerId := CANVAS_PROVIDER_ID
         userId := userId, scope := metadata, createdAt := now }] }

/-- Result of `createNewSimUser`. -/
structure NewSimUserResult where
  userId : String
  workspaceId : String
  linkId : String
  linkCreatedAt : Nat

/-- Embeds `createNewSimUser`: the transactional creation of user, stats,
link, workspace, admin permission and starter workflow. The best-effort
post-transaction workflow-state seeding writes tables outside this model
and cannot fail the call, so it has no footprint here. -/
def createNewSimUser (env : ProvisionEnv) (db : ProvisionDb)
    (canvasUserId email name : String) (metadata : Obj) :
    ProvisionDb × NewSimUserResult :=
  let userId := env.uuid 0
  let workspaceId := env.uuid 1
  let workflowId := env.uuid 2
  let linkId := env.uuid 3
  let now := env.now
  let firstName := String.mk (name.toList.takeWhile (fun c => c ≠ ' '))
  let workspaceName := firstName ++ "\x27s Workspace"
  let db1 : ProvisionDb :=
    { users := db.users ++
        [{ id := userId, name := name, email := email, emailVerified := true
           createdAt := now }]
      accounts := db.accounts ++
        [{ id := linkId, accountId := canvasUserId
           providerId := CANVAS_PROVIDER_ID, userId := userId
           scope := metadata, createdAt := now }]
      userStats := db.userStats ++
        [{ id := env.uuid 4, userId := userId
           currentUsageLimit := DEFAULT_CANVAS_USER_CREDITS }]
      workspaces := db.workspaces ++
        [{ id := workspaceId, name := workspaceName, ownerId := userId
           billedAccountUserId := userId, allowPersonalApiKeys := true
           createdAt := now }]
      permissions := db.permissions ++
        [{ id := env.uuid 5, entityType := "workspace", entityId := workspaceId
           userId := userId, permissionType := "admin", createdAt := now }]
      workflows := db.workflows ++
        [{ id := workflowId, userId := userId, workspaceId := workspaceId
           name := "canvas-workflow", description := "Your first Canvas workflow"
           color := "#3972F6", isDeployed := false, runCount := 0 }] }
  (db1, { userId := userId, workspaceId := workspaceId, linkId := linkId
          linkCreatedAt := now })

/-- Embeds the provisioning `POST` handler: already-linked, email-match and
new-account outcomes, in source order. -/
def provisionPOST (env : ProvisionEnv) (db : ProvisionDb)
    (req : ProvisionRequest) :
    ApiResponse UserProvisioningResponseData × ProvisionDb :=
  let derivedName := req.name.getD (deriveNameFromEmail req.email)
  let linkMetadata := mergeObj (req.metadata.getD [])
    (match req.workspaceId with
     | some w => if w ≠ "" then [("canvasWorkspaceId", JsonVal.str w)] else []
     | none => [])
  match findExistingCanvasLink db req.canvasUserId with
  | some existingLink =>
    (singleResponse
      { simUserId := existingLink.userId, canvasUserId := req.canvasUserId
        email := existingLink.email, createdAt := existingLink.createdAt
        linkId := existingLink.linkId, alreadyExisted := some true } 409, db)
  | none =>
    match findUserByEmail db req.email with
    | some existingUser =>
      let linkId := env.uuid 0
      let db1 := createCanvasAccountLink db existingUser.id req.canvasUserId
        linkMetadata linkId env.now
      (singleResponse
        { simUserId := existingUser.id, canvasUserId := req.canvasUserId
          email := existingUser.email, createdAt := env.now
          linkId := linkId, alreadyExisted := none } 201, db1)
    | none =>
      let (db1, result) := createNewSimUser env db req.canvasUserId req.email
        derivedName linkMetadata
      (singleResponse
        { simUserId := result.userId, canvasUserId := req.canvasUserId
          email := req.email, createdAt := result.linkCreatedAt
          linkId := result.linkId, alreadyExisted := none } 201, db1)

/-! Block execution (blocks/execute/route.ts): async-job detection, usage
extraction, timeout/retry adapter. -/

def DEFAULT_EXECUTION_TIMEOUT_MS : Nat := 30000

def MAX_EXECUTION_TIMEOUT_MS : Nat := 300000

/-- The in-flight status vocabulary (`ASYNC_STATUS_VALUES`). -/
def ASYNC_STATUS_VALUES : List String :=
  ["queued", "running", "processing", "pending", "in_progress", "in-progress",
   "started"]

/-- The alternatives of `ASYNC_MESSAGE_PATTERN`
(`\b(async|asynchronous|queued|processing|running|pending|in progress)\b`,
case-insensitive). -/
def asyncMessageTokens : List String :=
  ["async", "asynchronous", "queued", "processing", "running", "pending",
   "in progress"]

/-- Embeds `ASYNC_MESSAGE_PATTERN.test(message)`: some alternative occurs in
the lowercased message with word boundaries on both sides. -/
def asyncMessageTest (message : String) : Bool :=
  asyncMessageTokens.any (fun t =>
    hasBoundedToken (jsToLower message).toList t.toList)

/-- Nullish-aware property read: `undefined` and `null` both fall through a
`??` chain. -/
def nullishGet (o : Obj) (k : String) : Option JsonVal :=
  match getField o k with
  | some .null => none
  | v => v

/-- A `??` chain over several property reads of the same object. -/
def firstFieldVal (o : Obj) (ks : List String) : Option JsonVal :=
  ks.findSome? (nullishGet o)

/-- Embeds `getString`: a string value with nonempty trim, trimmed. -/
def getString : Option JsonVal → Option String
  | some (.str s) => if (jsTrim s).length > 0 then some (jsTrim s) else none
  | _ => none

/-- Embeds `getNumber`: a finite number, or a nonempty-trimmed string read
with `Number(...)` (modelled on decimal forms by `parseDecimal`). -/
def getNumber : Option JsonVal → Option ℚ
  | some (.num q) => some q
  | some (.str s) => if (jsTrim s).length > 0 then parseDecimal (jsTrim s) else none
  | _ => none

/-- Embeds `normalizeProgress`: clamp a 0-1 or 0-100 scale into [0, 1]. -/
def normalizeProgress (value : ℚ) : ℚ :=
  if value ≤ 0 then 0
  else if value ≤ 1 then value
  else if value ≤ 100 then value / 100
  else 1

/-- The payload extracted for a detected asynchronous job. -/
structure AsyncDetection where
  progress : Option ℚ
  currentStep : Option String
  estimatedCompletionMs : Option ℚ
deriving Repr, DecidableEq

/-- The `statusValue` read of `detectAsyncExecution`. -/
def statusValueOf (o : Obj) : Option String :=
  getString (firstFieldVal o ["status", "state", "jobStatus", "job_state"])

/-- The `normalizedStatus` of `detectAsyncExecution`. -/
def normalizedStatusOf (o : Obj) : Option String :=
  (statusValueOf o).map jsToLower

/-- The `isRunningStatus` test of `detectAsyncExecution`. -/
def isRunningStatusOf (o : Obj) : Bool :=
  match normalizedStatusOf o with
  | some s => ASYNC_STATUS_VALUES.contains s
  | none => false

/-- The `jobId` read of `detectAsyncExecution`. -/
def jobIdOf (o : Obj) : Option String :=
  getString (firstFieldVal o ["jobId", "job_id", "taskId", "task_id"])

/-- The `message` read of `detectAsyncExecution`. -/
def messageOf (o : Obj) : Option String :=
  getString (firstFieldVal o
    ["currentStep", "message", "statusMessage", "status_message"])

/-- The `hasAsyncMessage` test of `detectAsyncExecution`. -/
def hasAsyncMessageOf (o : Obj) : Bool :=
  match messageOf o with
  | some m => asyncMessageTest m
  | none => false

/-- Embeds `detectAsyncExecution`: classify an action output as an in-flight
asynchronous job from its status/state vocabulary or from a job/task id
co-occurring with an async-sounding message. -/
def detectAsyncExecution (output : Option Obj) : Option AsyncDetection :=
  match output with
  | none => none
  | some o =>
    if ¬ (isRunningStatusOf o = true) ∧
        ¬ ((jobIdOf o).isSome = true ∧ hasAsyncMessageOf o = true) then
      none
    else
      let progressValue :=
        getNumber (firstFieldVal o ["progress", "percentage", "percent"])
      let currentStep :=
        match messageOf o with
        | some m => some m
        | none => (normalizedStatusOf o).map (fun s => "Status: " ++ s)
      some { progress := progressValue.map normalizeProgress
             currentStep := currentStep
             estimatedCompletionMs :=
               getNumber (firstFieldVal o ["estimatedCompletionMs", "etaMs", "eta_ms"]) }

/-- Read `o[outer][inner]` and keep it only when truthy (models the
`if (x?.y) return x.y` steps of the usage extractors). -/
def truthyField (o : Obj) (outer inner : String) : Option JsonVal :=
  match getField o outer with
  | some (.obj t) =>
    match getField t inner with
    | some v => if truthy v then some v else none
    | none => none
  | _ => none

/-- Read `o[outer][inner]` and keep it only when it is a number. -/
def numField (o : Obj) (outer inner : String) : Option ℚ :=
  match getField o outer with
  | some (.obj t) =>
    match getField t inner with
    | some (.num q) => some q
    | _ => none
  | _ => none

/-- Embeds `extractTokensUsed`. -/
def extractTokensUsed (output : Option Obj) : Option JsonVal :=
  match output with
  | none => none
  | some o =>
    match truthyField o "tokens" "total" with
    | some v => some v
    | none =>
      match truthyField o "usage" "total_tokens" with
      | some v => some v
      | none =>
        match getField o "cost" with
        | some (.obj c) => truthyField c "tokens" "total"
        | _ => none

/-- Embeds `extractApiCallsMade` (defaults to one call). -/
def extractApiCallsMade (output : Option Obj) : Option ℚ :=
  match output with
  | none => some 1
  | some o =>
    match numField o "usage" "apiCallsMade" with
    | some q => some q
    | none => some 1

/-- Embeds `extractCreditsConsumed`. -/
def extractCreditsConsumed (output : Option Obj) : Option ℚ :=
  match output with
  | none => none
  | some o =>
    match numField o "usage" "creditsConsumed" with
    | some q => some q
    | none =>
      match getField o "cost" with
      | some (.obj c) =>
        match getField c "total" with
        | some (.num q) => some q
        | _ => none
      | _ => none

/-- The usage counters attached to an execution. -/
structure Usage where
  tokensUsed : Option JsonVal
  apiCallsMade : Option ℚ
  creditsConsumed : Option ℚ
deriving Repr

/-- The resolved value of one `executeTool` call. -/
structure ToolResult where
  success : Bool
  output : Option Obj
  error : Option String
deriving Repr

/-- Outcome of one `executeWithTimeout` call: a resolved tool result, or a
rejection (`exn "EXECUTION_TIMEOUT"` for the timer arm, any other message
for an `executeTool` rejection). -/
inductive AttemptOutcome where
  | res (r : ToolResult)
  | exn (message : String)

/-- The Execution Engine Adapter oracle: outcome of the (n+1)-th
`executeWithTimeout` call issued while serving one request. -/
abbrev AttemptOracle := Nat → AttemptOutcome

/-- Embeds `executeWithRetry`, instrumented with the number of
`executeWithTimeout` attempts performed. A first resolved failure retries
inside the `try`; if that retry rejects, the `catch` retries once more, so
up to three attempts can run. A first rejection retries in the `catch`. -/
def executeWithRetry (attempts : AttemptOracle) (_timeoutMs : Nat)
    (retryOnFailure : Bool) : Except String ToolResult × Nat :=
  match attempts 0 with
  | .res result =>
    if retryOnFailure && !result.success then
      match attempts 1 with
      | .res r2 => (.ok r2, 2)
      | .exn _ =>
        match attempts 2 with
        | .res r3 => (.ok r3, 3)
        | .exn e3 => (.error e3, 3)
    else (.ok result, 1)
  | .exn e =>
    if retryOnFailure then
      match attempts 1 with
      | .res r2 => (.ok r2, 2)
      | .exn e2 => (.error e2, 2)
    else (.error e, 1)

/-! The block catalog (externally owned descriptors) and parameter
hydration. -/

/-- A catalog sub-parameter declaration: an optional computed default (a JS
function, which may throw) and an optional static default. -/
structure SubBlock where
  id : String
  value : Option (Obj → Except String (Option JsonVal))
  defaultValue : Option JsonVal

/-- The optional tool bindings of a block: a parameter-dependent tool
selector and a parameter transform (which may throw). -/
structure ToolsConfig where
  tool : Option (Obj → Option String)
  params : Option (Obj → Except String Obj)

structure BlockTools where
  access : List String
  config : Option ToolsConfig

/-- A catalog block descriptor (the fields the gateway reads). -/
structure BlockConfig where
  type : String
  subBlocks : List SubBlock
  tools : BlockTools

/-- Embeds `resolveBlock`: exact type match first, then the tool-name alias
index (which also presets the tool id). -/
def resolveBlock (getBlock getBlockByToolName : String → Option BlockConfig)
    (blockType : String) : Option (BlockConfig × Option String) :=
  match getBlock blockType with
  | some blockConfig => some (blockConfig, none)
  | none =>
    match getBlockByToolName blockType with
    | some byToolName => some (byToolName, some blockType)
    | none => none

/-- Embeds `resolveToolId`. -/
def resolveToolId (blockConfig : BlockConfig) (params : Obj) : Option String :=
  match blockConfig.tools.config with
  | some cfg =>
    match cfg.tool with
    | some f => f params
    | none => blockConfig.tools.access.head?
  | none => blockConfig.tools.access.head?

/-- Embeds `applyBlockTransforms`: defaults for absent sub-parameters
(computed defaults tolerating throws), the optional parameter transform
(tolerating throws), then JSON-parsing of string-encoded structured inputs
(tolerating parse failures). `schemaProps` lists the input JSON schema's
property names with their declared types (`buildInputSchema` is externally
owned); `jsonParse` models `JSON.parse`. -/
def applyBlockTransforms (jsonParse : String → Option JsonVal)
    (schemaProps : List (String × Option String)) (blockConfig : BlockConfig)
    (params : Obj) : Obj :=
  let step1 := blockConfig.subBlocks.foldl (fun finalParams sb =>
    if (getField finalParams sb.id).isSome then finalParams
    else
      match sb.value with
      | some f =>
        match f finalParams with
        | .ok (some v) => setField finalParams sb.id v
        | .ok none => finalParams
        | .error _ => finalParams
      | none =>
        match sb.defaultValue with
        | some d => setField finalParams sb.id d
        | none => finalParams) params
  let step2 :=
    match blockConfig.tools.config with
    | some cfg =>
      match cfg.params with
      | some f =>
        match f step1 with
        | .ok transformedParams => mergeObj step1 transformedParams
        | .error _ => step1
      | none => step1
    | none => step1
  schemaProps.foldl (fun finalParams kv =>
    match getField finalParams kv.1 with
    | some (.str s) =>
      if (jsTrim s).length > 0 ∧ (kv.2 = some "object" ∨ kv.2 = some "array") then
        match jsonParse (jsTrim s) with
        | some j => setField finalParams kv.1 j
        | none => finalParams
      else finalParams
    | _ => finalParams) step2

/-! The execution log / idempotency store. -/

/-- The sanitized request snapshot persisted in `executionData.request`
(the subset of fields this model tracks; the stored copy of the parameters
is the redacted one). -/
structure RequestPayload where
  requestId : String
  idempotencyKey : Option String
  blockType : String
  toolId : String
  params : Obj

/-- The `executionData.response` payload written on completion or on an
async-running update. -/
structure ExecResponseData where
  blockType : String
  output : Obj
  error : Option String
  usage : Usage
  success : Bool
  status : String
  durationMs : Nat
  completedAt : Option Nat

/-- The `executionData` jsonb column. -/
structure ExecutionData where
  request : Option RequestPayload
  response : Option ExecResponseData
  status : String
  progress : Option ℚ
  currentStep : Option String
  estimatedCompletionMs : Option ℚ

/-- A row of `workflow_execution_logs` (the columns this route touches). -/
structure LogRow where
  id : String
  workspaceId : String
  executionId : String
  level : String
  trigger : String
  startedAt : Nat
  endedAt : Option Nat
  totalDurationMs : Option Nat
  executionData : ExecutionData
  blockType : Option String
  blockVersion : Option String
  callerId : String
  callerUserId : String
  callerWorkspaceId : Option String
  callerWorkflowId : Option String
  callerNodeId : Option String
  apiCallsMade : Option ℚ
  creditsConsumed : Option ℚ

/-- The row shape selected by `findExistingExecution` (and by the status
endpoint's identical select). -/
structure ExecutionRecordView where
  executionId : String
  startedAt : Nat
  endedAt : Option Nat
  totalDurationMs : Option Nat
  level : String
  executionData : ExecutionData

/-- Embeds `findExistingExecution`: first `workflow_execution_logs` row with
the given execution id. -/
def findExistingExecution (store : List LogRow) (executionId : String) :
    Option ExecutionRecordView :=
  (store.find? (fun r => r.executionId = executionId)).map (fun r =>
    { executionId := r.executionId, startedAt := r.startedAt
      endedAt := r.endedAt, totalDurationMs := r.totalDurationMs
      level := r.level, executionData := r.executionData })

/-- Embeds `logExecutionStart`: insert a `running` record. The insert
no-ops silently when a record for this execution id already exists
(`onConflictDoNothing` backed by the store's uniqueness of execution ids). -/
def logExecutionStart (store : List LogRow) (rowId executionId
    workspaceId blockTypeVal : String) (blockVersion : Option String)
    (callerUserId : String)
    (callerWorkspaceId callerWorkflowId callerNodeId : Option String)
    (requestData : RequestPayload) (now : Nat) : List LogRow :=
  if (store.find? (fun r => r.executionId = executionId)).isSome then store
  else store ++
    [{ id := rowId, workspaceId := workspaceId, executionId := executionId
       level := "info", trigger := "api", startedAt := now, endedAt := none
       totalDurationMs := none
       executionData :=
         { request := some requestData, response := none, status := "running"
           progress := none, currentStep := none, estimatedCompletionMs := none }
       blockType := some blockTypeVal, blockVersion := blockVersion
       callerId := CANVAS_PROVIDER_ID, callerUserId := callerUserId
       callerWorkspaceId := callerWorkspaceId
       callerWorkflowId := callerWorkflowId, callerNodeId := callerNodeId
       apiCallsMade := none, creditsConsumed := none }]

/-- Embeds `logExecutionCompletion`: the single terminal update keyed by
execution id (end timestamp, duration, severity level, terminal payload). -/
def logExecutionCompletion (store : List LogRow) (executionId : String)
    (durationMs : Nat) (success : Bool) (output : Obj)
    (errorMsg : Option String) (usage : Usage)
    (requestData : RequestPayload) (responseBlockType : String)
    (completedAt : Nat) : List LogRow :=
  store.map (fun r =>
    if r.executionId = executionId then
      { r with
          endedAt := some completedAt
          totalDurationMs := some durationMs
          level := if success then "info" else "error"
          executionData :=
            { request := some requestData
              response := some
                { blockType := responseBlockType, output := output
                  error := errorMsg, usage := usage, success := success
                  status := if success then "completed" else "failed"
                  durationMs := durationMs, completedAt := some completedAt }
              status := if success then "completed" else "failed"
              progress := none, currentStep := none
              estimatedCompletionMs := none }
          apiCallsMade :=
            match usage.apiCallsMade with
            | some q => some q
            | none => r.apiCallsMade
          creditsConsumed :=
            match usage.creditsConsumed with
            | some q => some q
            | none => r.creditsConsumed }
    else r)

/-- Embeds `logExecutionRunning`: update the payload with progress/step/ETA
but leave the record in `running` state (no end timestamp). -/
def logExecutionRunning (store : List LogRow) (executionId : String)
    (durationMs : Nat) (output : Obj) (usage : Usage)
    (requestData : RequestPayload) (responseBlockType : String)
    (progress : Option ℚ) (currentStep : Option String)
    (estimatedCompletionMs : Option ℚ) : List LogRow :=
  store.map (fun r =>
    if r.executionId = executionId then
      { r with
          executionData :=
            { request := some requestData
              response := some
                { blockType := responseBlockType, output := output
                  error := none, usage := usage, success := true
                  status := "running", durationMs := durationMs
                  completedAt := none }
              status := "running", progress := progress
              currentStep := currentStep
              estimatedCompletionMs := estimatedCompletionMs }
          apiCallsMade :=
            match usage.apiCallsMade with
            | some q => some q
            | none => r.apiCallsMade
          creditsConsumed :=
            match usage.creditsConsumed with
            | some q => some q
            | none => r.creditsConsumed }
    else r)

/-- Embeds `findLinkedSimUser`: first `account` row for (external id,
canvas provider). -/
def findLinkedSimUser (accounts : List AccountRow) (canvasUserId : String) :
    Option String :=
  (accounts.find? (fun a =>
    a.accountId = canvasUserId ∧ a.providerId = CANVAS_PROVIDER_ID)).map
    (fun a => a.userId)

/-- Embeds `findUserWorkspace`: first workspace owned by the user. -/
def findUserWorkspace (workspaces : List WorkspaceRow) (userId : String) :
    Option String :=
  (workspaces.find? (fun w => w.ownerId = userId)).map (fun w => w.id)

/-- Embeds the credential-shaped error heuristic of the POST handler. -/
def isMissingCredentials (errorMessage : String) : Bool :=
  let lower := (jsToLower errorMessage).toList
  containsSub lower "credential".toList || containsSub lower "oauth".toList ||
    containsSub lower "api key".toList

/-- Embeds the synthetic workflow id of `buildCanvasExecutionContext`. -/
def buildCanvasWorkflowId (executionId : String)
    (canvasWorkflowId : Option String) : String :=
  canvasWorkflowId.getD ("canvas-" ++ executionId)

/-! The execute endpoint handler and the status-poll endpoint. -/

structure ExecTiming where
  startedAt : Nat
  completedAt : Option Nat
  durationMs : Option Nat

/-- The `BlockExecutionResponseData` payload shape. -/
structure BlockExecutionResponseData where
  executionId : String
  blockType : String
  status : String
  output : Option Obj
  progress : Option ℚ
  currentStep : Option String
  timing : Option ExecTiming
  pollUrl : Option String
  estimatedCompletionMs : Option ℚ
  usage : Option Usage

/-- The poll URL advertised for an execution id. -/
def pollUrlFor (executionId : String) : String :=
  "/api/v1/executions/" ++ executionId ++ "/status"

/-- Embeds `buildExecutionStatusResponse`: a 202 running payload when the
stored record has no end timestamp, otherwise a 200 replay of the stored
terminal result (status `failed` exactly when the severity level is
`error`). -/
def buildExecutionStatusResponse (existing : ExecutionRecordView)
    (executionId : String) : ApiResponse BlockExecutionResponseData :=
  match existing.endedAt with
  | none =>
    singleResponse
      { executionId := executionId
        blockType :=
          ((existing.executionData.request).map (fun p => p.blockType)).getD
            "unknown"
        status := "running"
        output := none
        progress := some ((existing.executionData.progress).getD 0)
        currentStep := some ((existing.executionData.currentStep).getD "Running")
        timing := some
          { startedAt := existing.startedAt, completedAt := none
            durationMs := none }
        pollUrl := some (pollUrlFor executionId)
        estimatedCompletionMs := existing.executionData.estimatedCompletionMs
        usage := none } 202
  | some endedAt =>
    let responseData := existing.executionData.response
    singleResponse
      { executionId := executionId
        blockType :=
          match responseData with
          | some r => r.blockType
          | none =>
            ((existing.executionData.request).map (fun p => p.blockType)).getD
              "unknown"
        status := if existing.level = "error" then "failed" else "completed"
        output := some (match responseData with | some r => r.output | none => [])
        progress := none
        currentStep := none
        timing := some
          { startedAt := existing.startedAt, completedAt := some endedAt
            durationMs := existing.totalDurationMs }
        pollUrl := none
        estimatedCompletionMs := none
        usage := responseData.map (fun r => r.usage) } 200

/-- The `context` object of an execute request body. -/
structure ExecContextReq where
  workflowId : Option String
  executionId : Option String
  nodeId : Option String

/-- The `options` object of an execute request body. -/
structure ExecOptions where
  timeout : Option Nat
  retryOnFailure : Option Bool

/-- A parsed execute request body (the base zod shape is type-level). -/
structure ExecRequest where
  blockType : String
  params : Option Obj
  inputs : Option Obj
  blockVersion : Option String
  context : Option ExecContextReq
  options : Option ExecOptions

/-- The validated service context the middleware hands to the route (the
caller-context headers, already merged in). -/
structure RouteServiceContext where
  serviceName : String
  keyPrefixVal : String
  canvasUserId : Option String
  canvasWorkspaceId : Option String
  requestId : Option String
  idempotencyKey : Option String

/-- Environment for one execute request: the externally owned collaborators
and this request's nondeterministic inputs. -/
structure ExecEnv where
  getBlock : String → Option BlockConfig
  getBlockByToolName : String → Option BlockConfig
  inputSchemaProps : BlockConfig → List (String × Option String)
  jsonParse : String → Option JsonVal
  redact : Obj → Obj
  attempts : AttemptOracle
  accounts : List AccountRow
  workspaces : List WorkspaceRow
  freshUuid : String
  freshRowId : String
  startTime : Nat
  endTime : Nat

/-- Result of one modelled execute request: the response, the store after
the request, and ghost observations (the execution id the handler settled
on, and how many engine attempts it performed). -/
structure PostOutcome where
  response : ApiResponse BlockExecutionResponseData
  store : List LogRow
  executionIdUsed : Option String
  attemptsMade : Nat

/-- Embeds the zod validation that can reject a typed execute body:
`params`/`inputs` at least one present, `blockType` nonempty, `timeout`
within 1000-300000 ms. -/
def execParseFails (req : ExecRequest) : Bool :=
  (req.params.isNone && req.inputs.isNone) || req.blockType == "" ||
    (match req.options.bind (fun o => o.timeout) with
     | some t => decide (t < 1000) || decide (t > MAX_EXECUTION_TIMEOUT_MS)
     | none => false)

/-- The execution phase of the POST handler, from `executeWithRetry` on:
async-running detection, terminal completion write, and the catch arm that
maps a rejection to TIMEOUT/EXECUTION_FAILED after writing a terminal
record. -/
def runBlockExecution (env : ExecEnv) (store1 : List LogRow)
    (req : ExecRequest) (executionId : String) (blockConfig : BlockConfig)
    (requestPayload : RequestPayload) : PostOutcome :=
  let timeoutMs := (req.options.bind (fun o => o.timeout)).getD
    DEFAULT_EXECUTION_TIMEOUT_MS
  let retryOnFailure := (req.options.bind (fun o => o.retryOnFailure)).getD false
  let (outcome, attemptsMade) := executeWithRetry env.attempts timeoutMs retryOnFailure
  let durationMs := env.endTime - env.startTime
  match outcome with
  | .error errorMessage =>
    let store2 :=
      if executionId ≠ "" ∧ blockConfig.type ≠ "" then
        logExecutionCompletion store1 executionId durationMs false []
          (some errorMessage)
          { tokensUsed := none, apiCallsMade := none, creditsConsumed := none }
          requestPayload blockConfig.type env.endTime
      else store1
    if errorMessage = "EXECUTION_TIMEOUT" then
      { response := errorResponse "TIMEOUT" "Execution exceeded timeout" 504
          (some (.obj [("executionId", .str executionId),
            ("durationMs", .num (durationMs : ℚ))])) none
        store := store2, executionIdUsed := some executionId
        attemptsMade := attemptsMade }
    else
      { response := errorResponse "EXECUTION_FAILED" errorMessage 500
          (some (.obj [("executionId", .str executionId),
            ("durationMs", .num (durationMs : ℚ))])) none
        store := store2, executionIdUsed := some executionId
        attemptsMade := attemptsMade }
  | .ok result =>
    let usage : Usage :=
      { tokensUsed := extractTokensUsed result.output
        apiCallsMade := extractApiCallsMade result.output
        creditsConsumed := extractCreditsConsumed result.output }
    let asyncExecution :=
      if result.success then detectAsyncExecution result.output else none
    match asyncExecution with
    | some a =>
      let store2 := logExecutionRunning store1 executionId durationMs
        (env.redact (result.output.getD [])) usage requestPayload
        blockConfig.type a.progress a.currentStep a.estimatedCompletionMs
      { response := singleResponse
          { executionId := executionId, blockType := blockConfig.type
            status := "running", output := none, progress := a.progress
            currentStep := a.currentStep, timing := none
            pollUrl := some (pollUrlFor executionId)
            estimatedCompletionMs := a.estimatedCompletionMs
            usage := none } 202
        store := store2, executionIdUsed := some executionId
        attemptsMade := attemptsMade }
    | none =>
      let store2 := logExecutionCompletion store1 executionId durationMs
        result.success (env.redact (result.output.getD [])) result.error usage
        requestPayload blockConfig.type env.endTime
      if ¬ (result.success = true) then
        let errorMessage := result.error.getD "Block execution failed"
        let missing := isMissingCredentials errorMessage
        { response := errorResponse
            (if missing then "MISSING_CREDENTIALS" else "EXECUTION_FAILED")
            errorMessage (if missing then 400 else 500)
            (some (.obj [("executionId", .str executionId),
              ("blockType", .str blockConfig.type)])) none
          store := store2, executionIdUsed := some executionId
          attemptsMade := attemptsMade }
      else
        { response := singleResponse
            { executionId := executionId, blockType := blockConfig.type
              status := "completed", output := some (result.output.getD [])
              progress := none, currentStep := none
              timing := some
                { startedAt := env.startTime, completedAt := some env.endTime
                  durationMs := some durationMs }
              pollUrl := none, estimatedCompletionMs := none
              usage := some usage } 200
          store := store2, executionIdUsed := some executionId
          attemptsMade := attemptsMade }

/-- The POST handler after admission: idempotency check, block resolution,
hydration, user/workspace resolution, start-record insert, execution. -/
def postAfterAdmission (env : ExecEnv) (store : List LogRow)
    (req : ExecRequest) (svc : RouteServiceContext)
    (canvasUserId executionId : String) : PostOutcome :=
  match findExistingExecution store executionId with
  | some existing =>
    { response := buildExecutionStatusResponse existing executionId
      store := store, executionIdUsed := some executionId, attemptsMade := 0 }
  | none =>
    match resolveBlock env.getBlock env.getBlockByToolName req.blockType with
    | none =>
      { response := errorResponse "INVALID_BLOCK_TYPE" "Unknown block type" 400
          (some (.obj [("blockType", .str req.blockType)])) none
        store := store, executionIdUsed := some executionId, attemptsMade := 0 }
    | some (blockConfig, presetToolId) =>
      let params := (req.params.or req.inputs).getD []
      let hydratedParams := applyBlockTransforms env.jsonParse
        (env.inputSchemaProps blockConfig) blockConfig params
      match presetToolId.or (resolveToolId blockConfig hydratedParams) with
      | none =>
        { response := errorResponse "INVALID_BLOCK_TYPE"
            "Unable to resolve tool for block type" 400
            (some (.obj [("blockType", .str req.blockType)])) none
          store := store, executionIdUsed := some executionId
          attemptsMade := 0 }
      | some toolId =>
        match findLinkedSimUser env.accounts canvasUserId with
        | none =>
          { response := errorResponse "USER_NOT_PROVISIONED"
              "Canvas user not linked to Sim Studio. Call /users/provision first."
              404 none none
            store := store, executionIdUsed := some executionId
            attemptsMade := 0 }
        | some simUserId =>
          match findUserWorkspace env.workspaces simUserId with
          | none =>
            { response := internalErrorResponse "User workspace not found"
              store := store, executionIdUsed := some executionId
              attemptsMade := 0 }
          | some workspaceId =>
            let requestId := svc.requestId.getD executionId
            let requestPayload : RequestPayload :=
              { requestId := requestId, idempotencyKey := svc.idempotencyKey
                blockType := req.blockType, toolId := toolId
                params := env.redact hydratedParams }
            let store1 := logExecutionStart store env.freshRowId executionId
              workspaceId blockConfig.type req.blockVersion canvasUserId
              svc.canvasWorkspaceId (req.context.bind (fun c => c.workflowId))
              (req.context.bind (fun c => c.nodeId)) requestPayload
              env.startTime
            runBlockExecution env store1 req executionId blockConfig
              requestPayload

/-- Embeds the execute endpoint's POST handler (after middleware): body
validation, user-header check, execution-id selection by the fallback chain
caller id / idempotency key / fresh UUID, then the admitted flow. -/
def blocksExecutePOST (env : ExecEnv) (store : List LogRow)
    (req : ExecRequest) (svc : RouteServiceContext) : PostOutcome :=
  if execParseFails req then
    { response := badRequestResponse "Validation failed" none
      store := store, executionIdUsed := none, attemptsMade := 0 }
  else
    let canvasUser :=
      match svc.canvasUserId with
      | some u => if u = "" then none else some u
      | none => none
    match canvasUser with
    | none =>
      { response := badRequestResponse "Missing X-Canvas-User-Id header" none
        store := store, executionIdUsed := none, attemptsMade := 0 }
    | some canvasUserId =>
      let executionId :=
        ((req.context.bind (fun c => c.executionId)).or
          svc.idempotencyKey).getD env.freshUuid
      postAfterAdmission env store req svc canvasUserId executionId

/-- Embeds the execution status GET endpoint: a pure read of the stored
record, rendered with the same running/terminal shapes as the execute
endpoint (both served with a 200 success envelope here). -/
def executionStatusGET (store : List LogRow) (executionId : String) :
    ApiResponse BlockExecutionResponseData :=
  match findExistingExecution store executionId with
  | none => notFoundResponse "Execution"
  | some log =>
    match log.endedAt with
    | none =>
      singleResponse
        { executionId := executionId
          blockType :=
            ((log.executionData.request).map (fun p => p.blockType)).getD
              "unknown"
          status := "running"
          output := none
          progress := some ((log.executionData.progress).getD 0)
          currentStep := some ((log.executionData.currentStep).getD "Running")
          timing := some
            { startedAt := log.startedAt, completedAt := none
              durationMs := none }
          pollUrl := some (pollUrlFor executionId)
          estimatedCompletionMs := log.executionData.estimatedCompletionMs
          usage := none } 200
    | some endedAt =>
      let responseData := log.executionData.response
      singleResponse
        { executionId := executionId
          blockType :=
            match responseData with
            | some r => r.blockType
            | none =>
              ((log.executionData.request).map (fun p => p.blockType)).getD
                "unknown"
          status := if log.level = "error" then "failed" else "completed"
          output := some (match responseData with | some r => r.output | none => [])
          progress := none
          currentStep := none
          timing := some
            { startedAt := log.startedAt, completedAt := some endedAt
              durationMs := log.totalDurationMs }
          pollUrl := none
          estimatedCompletionMs := none
          usage := responseData.map (fun r => r.usage) } 200

/-- Does the store hold a record for this execution id? -/
def hasExecRow (store : List LogRow) (e : String) : Bool :=
  (store.find? (fun r => r.executionId = e)).isSome

/-- Process a sequence of execute requests against one store, threading the
store from request to request; returns the final store and the per-request
outcomes in order. -/
def processRequests (store : List LogRow) :
    List (ExecEnv × ExecRequest × RouteServiceContext) →
      List LogRow × List PostOutcome
  | [] => (store, [])
  | (env, req, svc) :: rest =>
    let out := blocksExecutePOST env store req svc
    let next := processRequests out.store rest
    (next.1, out :: next.2)

/-- How many outcomes of a request sequence actually invoked the Execution
Engine Adapter under the given execution id. -/
def invokerCount (e : String) (outs : List PostOutcome) : Nat :=
  (outs.filter (fun o =>
    o.executionIdUsed == some e && decide (0 < o.attemptsMade))).length

/-- Projection: the internal user id carried by a provisioning response. -/
def respSimUserId (r : ApiResponse UserProvisioningResponseData) : Option String :=
  match r with
  | .success _ d => some d.simUserId
  | .error _ _ _ _ _ => none

/-! Concrete fixtures used by the claim witnesses and counterexamples. -/

/-- An inactive stored service key. -/
def c4Record : ServiceKeyRecord :=
  { id := "key-id", keyHash := "HASH", keyPrefixVal := "sim_svc_inactive"
    serviceName := "canvas", permissions := .arr [.str "blocks:list"]
    rateLimitPerMinute := none, rateLimitPerDay := none, isActive := false
    expiresAt := none, metadata := [] }

/-- A storage adapter whose every token-bucket check raises. -/
def c5Storage : StorageOracle := fun _ _ _ => .error "storage failure"

def c5Context : CanvasRequestContext :=
  { serviceName := "canvas", keyPrefixVal := "sim_svc_abc"
    canvasUserId := some "11111111-1111-1111-1111-111111111111"
    rateLimitPerMinute := none, rateLimitPerDay := none }

/-- An empty relational store for provisioning scenarios. -/
def emptyProvisionDb : ProvisionDb :=
  { users := [], accounts := [], userStats := [], workspaces := []
    permissions := [], workflows := [] }

def c8Env : ProvisionEnv := { uuid := fun n => "uuid-" ++ toString n, now := 7 }

def c8Req : ProvisionRequest :=
  { canvasUserId := "cu-1", email := "jane.q.doe@example.com", name := none
    workspaceId := none, metadata := none }

def c3Env1 : ProvisionEnv := { uuid := fun n => "uuidA-" ++ toString n, now := 7 }

def c3Env2 : ProvisionEnv := { uuid := fun n => "uuidB-" ++ toString n, now := 9 }

def c3Req : ProvisionRequest :=
  { canvasUserId := "cu-3", email := "pat@example.com", name := some "Pat"
    workspaceId := none, metadata := none }

/-- A minimal catalog block (the Gmail block of the route tests). -/
def gmailBlock : BlockConfig :=
  { type := "gmail", subBlocks := []
    tools := { access := ["gmail_send"], config := none } }

/-- An execute-route environment with a linked user and workspace whose
engine attempts all reject with the timeout marker. -/
def c2Env : ExecEnv :=
  { getBlock := fun t => if t = "gmail" then some gmailBlock else none
    getBlockByToolName := fun _ => none
    inputSchemaProps := fun _ => []
    jsonParse := fun _ => none
    redact := id
    attempts := fun _ => .exn "EXECUTION_TIMEOUT"
    accounts := [{ id := "l1", accountId := "cu-1", providerId := "canvas"
                   userId := "u1", scope := [], createdAt := 0 }]
    workspaces := [{ id := "w1", name := "W", ownerId := "u1"
                     billedAccountUserId := "u1", allowPersonalApiKeys := true
                     createdAt := 0 }]
    freshUuid := "fresh-1", freshRowId := "row-1"
    startTime := 3, endTime := 5 }

def c2Req : ExecRequest :=
  { blockType := "gmail", params := some [("to", .str "a@b.com")]
    inputs := none, blockVersion := none
    context := some { workflowId := none, executionId := some "e1", nodeId := none }
    options := none }

def c2Svc : RouteServiceContext :=
  { serviceName := "canvas", keyPrefixVal := "sim_svc_abc"
    canvasUserId := some "cu-1", canvasWorkspaceId := none
    requestId := none, idempotencyKey := none }

/-- An attempt oracle whose first attempt reports failure, second rejects,
third succeeds (exercises the three-attempt retry path). -/
def c6Attempts : AttemptOracle := fun n =>
  if n = 0 then .res { success := false, output := none, error := some "boom" }
  else if n = 1 then .exn "crash"
  else .res { success := true, output := some [("ok", .bool true)], error := none }

/-- A stored terminal (failed) execution record. -/
def c10View : ExecutionRecordView :=
  { executionId := "e10", startedAt := 3, endedAt := some 5
    totalDurationMs := some 2, level := "error"
    executionData :=
      { request := some
          { requestId := "r", idempotencyKey := none, blockType := "gmail"
            toolId := "gmail_send", params := [] }
        response := some
          { blockType := "gmail", output := [], error := some "boom"
            usage := { tokensUsed := none, apiCallsMade := some 1
                       creditsConsumed := none }
            success := false, status := "failed", durationMs := 2
            completedAt := some 5 }
        status := "failed", progress := none, currentStep := none
        estimatedCompletionMs := none } }

/-- The log row backing `c10View`. -/
def c10Row : LogRow :=
  { id := "row-10", workspaceId := "w1", executionId := "e10"
    level := "error", trigger := "api", startedAt := 3, endedAt := some 5
    totalDurationMs := some 2, executionData := c10View.executionData
    blockType := some "gmail", blockVersion := none, callerId := "canvas"
    callerUserId := "cu-1", callerWorkspaceId := none
    callerWorkflowId := none, callerNodeId := none
    apiCallsMade := some 1, creditsConsumed := none }

/-- A stored running record (no end timestamp) for replay scenarios. -/
def c1Row : LogRow :=
  { id := "row-1", workspaceId := "w1", executionId := "e1"
    level := "info", trigger := "api", startedAt := 3, endedAt := none
    totalDurationMs := none
    executionData :=
      { request := some
          { requestId := "r", idempotencyKey := none, blockType := "gmail"
            toolId := "gmail_send", params := [] }
        response := none, status := "running", progress := none
        currentStep := none, estimatedCompletionMs := none }
    blockType := some "gmail", blockVersion := none, callerId := "canvas"
    callerUserId := "cu-1", callerWorkspaceId := none
    callerWorkflowId := none, callerNodeId := none
    apiCallsMade := none, creditsConsumed := none }

/-- A service context carrying only an idempotency key. -/
def c9Svc : RouteServiceContext :=
  { serviceName := "canvas", keyPrefixVal := "sim_svc_abc"
    canvasUserId := some "cu-1", canvasWorkspaceId := none
    requestId := none, idempotencyKey := some "idem-key" }

/-- An execute request that supplies no caller execution id. -/
def c9Req : ExecRequest :=
  { blockType := "gmail", params := some [("to", .str "a@b.com")]
    inputs := none, blockVersion := none, context := none, options := none }

/-- Like `c2Env` but with a succeeding engine and different fresh ids. -/
def c9Env : ExecEnv :=
  { c2Env with
    attempts := fun _ => .res { success := true, output := some [("messageId", .str "m1")], error := none }
    freshUuid := "fresh-A", freshRowId := "row-A" }

/-- A second environment with different fresh UUIDs. -/
def c9EnvB : ExecEnv :=
  { c9Env with freshUuid := "fresh-B", freshRowId := "row-B" }

/-! Theorems settling the claims. -/

/-- C4: for every stored key record that is inactive, authentication fails
with code INACTIVE_KEY regardless of which required scopes are missing; in
particular an inactive key is never reported as INSUFFICIENT_SCOPE, because
the scope check is evaluated only after the active check. -/
theorem c4_inactive_key_reported_inactive
    (hash : String → String) (table : List ServiceKeyRecord)
    (jsonParse : String → Option JsonVal) (key : String)
    (requiredScopes : Option (List String)) (now : Nat)
    (keyRecord : ServiceKeyRecord)
    (hfmt : jsStartsWith key serviceKeyFormatMarker = true)
    (hfound : table.find? (fun r =>
      r.keyHash = hash key ∧ r.serviceName = CANVAS_SERVICE_ID) = some keyRecord)
    (hinactive : keyRecord.isActive = false) :
    authenticateCanvasRequest hash table none jsonParse (some key)
      requiredScopes now =
      AuthResult.failure "Service API key is inactive" "INACTIVE_KEY" := by
  unfold authenticateCanvasRequest
  simp only [Bool.decide_and] at hfound
  simp [hfmt, hfound, hinactive]

/-- Witness for C4: a concrete inactive key with missing scopes is still
reported INACTIVE_KEY, not INSUFFICIENT_SCOPE. -/
theorem c4_inactive_key_reported_inactive_witness :
    jsStartsWith "sim_svc_inactivekey" serviceKeyFormatMarker = true ∧
    c4Record.isActive = false ∧
    authenticateCanvasRequest (fun _ => "HASH") [c4Record] none (fun _ => none)
      (some "sim_svc_inactivekey") (some ["blocks:execute"]) 0 =
      AuthResult.failure "Service API key is inactive" "INACTIVE_KEY" :=
  ⟨rfl, rfl,
    c4_inactive_key_reported_inactive (fun _ => "HASH") [c4Record]
      (fun _ => none) "sim_svc_inactivekey" (some ["blocks:execute"]) 0
      c4Record rfl rfl rfl⟩

/-- C5: the rate limiter fails closed: whenever an internal error escapes
any of its token-bucket checks, `enforceCanvasRateLimit` answers
not-allowed with a retry-after hint of exactly 60000 ms. -/
theorem c5_rate_limiter_fails_closed
    (storage : StorageOracle) (context : CanvasRequestContext) (e : String)
    (herr : enforceCanvasRateLimitBody storage context = Except.error e) :
    enforceCanvasRateLimit storage context =
      { allowed := false, retryAfterMs := some 60000 } := by
  unfold enforceCanvasRateLimit
  rw [herr]
  rfl

/-- Witness for C5: a storage adapter that raises on every check makes the
limiter answer not-allowed with a one-minute retry hint. -/
theorem c5_rate_limiter_fails_closed_witness :
    enforceCanvasRateLimitBody c5Storage c5Context =
      Except.error "storage failure" ∧
    enforceCanvasRateLimit c5Storage c5Context =
      { allowed := false, retryAfterMs := some 60000 } :=
  ⟨rfl, c5_rate_limiter_fails_closed c5Storage c5Context "storage failure" rfl⟩

/-- C8: when a provisioning request supplies no display name and a fresh
account is created, the stored name is `deriveNameFromEmail` of the email;
and that derivation splits the email's local part on the delimiters
`.`/`_`/`-`, title-cases each segment and joins them, falling back to the
generic label exactly when the local part is empty. -/
theorem c8_derived_name_from_email (env : ProvisionEnv) (db : ProvisionDb)
    (req : ProvisionRequest)
    (hname : req.name = none)
    (hnolink : findExistingCanvasLink db req.canvasUserId = none)
    (hnoemail : findUserByEmail db req.email = none) :
    (∃ u : UserRow,
      (provisionPOST env db req).2.users = db.users ++ [u] ∧
        u.name = deriveNameFromEmail req.email) ∧
    (∀ email : String,
      (email.toList.takeWhile (fun c => c ≠ '@') = [] →
        deriveNameFromEmail email = "Canvas User") ∧
      (email.toList.takeWhile (fun c => c ≠ '@') ≠ [] →
        deriveNameFromEmail email =
          String.intercalate " "
            ((splitDelim (email.toList.takeWhile (fun c => c ≠ '@'))).map
              (fun seg => String.mk (titleCaseSeg seg))))) := by
  constructor
  · refine ⟨{ id := env.uuid 0, name := deriveNameFromEmail req.email
              email := req.email, emailVerified := true, createdAt := env.now },
      ?_, rfl⟩
    unfold provisionPOST createNewSimUser
    rw [hnolink, hnoemail]
    simp [hname]
  · intro email
    constructor
    · intro h
      simp only [deriveNameFromEmail, h]
      rfl
    · intro h
      simp only [deriveNameFromEmail]
      cases htw : List.takeWhile (fun c => c ≠ '@') email.toList with
      | nil => exact absurd htw h
      | cons c rest => rfl

/-- Helper: after linking an external id to a user that exists in the
store, the link lookup finds a link carrying that user id. -/
theorem findExistingCanvasLink_createLink (db : ProvisionDb) (cu uid : String)
    (meta : Obj) (linkId : String) (now : Nat)
    (hnone : findExistingCanvasLink db cu = none)
    (huser : (db.users.find? (fun u => u.id = uid)).isSome) :
    ∃ v : CanvasLinkView,
      findExistingCanvasLink (createCanvasAccountLink db uid cu meta linkId now)
        cu = some v ∧ v.userId = uid := by
  obtain ⟨u, hu⟩ := Option.isSome_iff_exists.mp huser
  refine ⟨{ linkId := linkId, userId := uid, createdAt := now, email := u.email },
    ?_, rfl⟩
  simp only [findExistingCanvasLink, createCanvasAccountLink] at hnone ⊢
  rw [List.findSome?_append, hnone, Option.none_or]
  simp [canvasLinkJoin, hu, CANVAS_PROVIDER_ID]

/-- Helper: after the transactional new-account creation, the link lookup
finds a link carrying the freshly generated user id. -/
theorem findExistingCanvasLink_newUser (env : ProvisionEnv) (db : ProvisionDb)
    (cu email name : String) (meta : Obj)
    (hnone : findExistingCanvasLink db cu = none) :
    ∃ v : CanvasLinkView,
      findExistingCanvasLink (createNewSimUser env db cu email name meta).1 cu =
        some v ∧ v.userId = env.uuid 0 := by
  simp only [findExistingCanvasLink, createNewSimUser] at hnone ⊢
  rw [List.findSome?_append]
  rw [List.findSome?_eq_none_iff] at hnone
  cases he : List.findSome?
      (canvasLinkJoin
        (db.users ++
          [{ id := env.uuid 0, name := name, email := email
             emailVerified := true, createdAt := env.now }]) cu)
      db.accounts with
  | none =>
    rw [Option.none_or]
    cases hf : db.users.find? (fun u => u.id = env.uuid 0) with
    | none =>
      exact ⟨{ linkId := env.uuid 3, userId := env.uuid 0
               createdAt := env.now, email := email },
        by simp [canvasLinkJoin, List.find?_append, hf, CANVAS_PROVIDER_ID], rfl⟩
    | some u0 =>
      exact ⟨{ linkId := env.uuid 3, userId := env.uuid 0
               createdAt := env.now, email := u0.email },
        by simp [canvasLinkJoin, List.find?_append, hf, CANVAS_PROVIDER_ID], rfl⟩
  | some v =>
    obtain ⟨a, hamem, hga⟩ := List.exists_of_findSome?_eq_some he
    have hganone := hnone a hamem
    unfold canvasLinkJoin at hga hganone
    by_cases hc : a.accountId = cu ∧ a.providerId = CANVAS_PROVIDER_ID
    · rw [if_pos hc] at hga hganone
      have hfnone : db.users.find? (fun u => u.id = a.userId) = none :=
        Option.map_eq_none'.mp hganone
      rw [List.find?_append, hfnone, Option.none_or] at hga
      by_cases hid : env.uuid 0 = a.userId
      · refine ⟨v, rfl, ?_⟩
        simp [hid] at hga
        subst hga
        exact hid.symm
      · simp [hid] at hga
    · rw [if_neg hc] at hga
      exact Option.noConfusion hga

/-- Helper: whatever path the provisioning handler takes, the response
carries an internal user id and afterwards the link lookup for the same
external id finds a link with exactly that user id. -/
theorem provisionPOST_links_response_user (env : ProvisionEnv)
    (db : ProvisionDb) (req : ProvisionRequest) :
    ∃ u : String,
      respSimUserId (provisionPOST env db req).1 = some u ∧
      ∃ v : CanvasLinkView,
        findExistingCanvasLink (provisionPOST env db req).2 req.canvasUserId =
          some v ∧ v.userId = u := by
  cases h1 : findExistingCanvasLink db req.canvasUserId with
  | some link =>
    refine ⟨link.userId, ?_, link, ?_, rfl⟩
    · simp only [provisionPOST, h1, respSimUserId, singleResponse]
    · simp only [provisionPOST, h1]
  | none =>
    cases h2 : findUserByEmail db req.email with
    | some existingUser =>
      have huser : (db.users.find? (fun u => u.id = existingUser.id)).isSome := by
        rw [List.find?_isSome]
        exact ⟨existingUser, List.mem_of_find?_eq_some h2, by simp⟩
      obtain ⟨v, hv, hvu⟩ := findExistingCanvasLink_createLink db
        req.canvasUserId existingUser.id
        (mergeObj (req.metadata.getD [])
          (match req.workspaceId with
           | some w => if w ≠ "" then [("canvasWorkspaceId", JsonVal.str w)] else []
           | none => []))
        (env.uuid 0) env.now h1 huser
      refine ⟨existingUser.id, ?_, v, ?_, hvu⟩
      · simp only [provisionPOST, h1, h2, respSimUserId, singleResponse]
      · simp only [provisionPOST, h1, h2]
        exact hv
    | none =>
      obtain ⟨v, hv, hvu⟩ := findExistingCanvasLink_newUser env db
        req.canvasUserId req.email (req.name.getD (deriveNameFromEmail req.email))
        (mergeObj (req.metadata.getD [])
          (match req.workspaceId with
           | some w => if w ≠ "" then [("canvasWorkspaceId", JsonVal.str w)] else []
           | none => []))
        h1
      refine ⟨env.uuid 0, ?_, v, ?_, hvu⟩
      · simp only [provisionPOST, h1, h2, createNewSimUser, respSimUserId,
          singleResponse]
      · simp only [provisionPOST, h1, h2]
        simp only [createNewSimUser] at hv ⊢
        exact hv

/-- Helper: when a link already exists, the handler replies 409 with the
linked user id, flags it as already existing, and leaves the store
untouched. -/
theorem provisionPOST_already_linked (env : ProvisionEnv) (db : ProvisionDb)
    (req : ProvisionRequest) (v : CanvasLinkView)
    (h : findExistingCanvasLink db req.canvasUserId = some v) :
    provisionPOST env db req =
      (singleResponse
        { simUserId := v.userId, canvasUserId := req.canvasUserId
          email := v.email, createdAt := v.createdAt, linkId := v.linkId
          alreadyExisted := some true } 409, db) := by
  simp only [provisionPOST, h]

/-- C3: provisioning the same external user id a second time returns the
already-linked outcome: HTTP 409, `alreadyExisted = true`, and the same
internal user id the first call returned; the second call leaves the store
unchanged (no new user, link, or workspace). -/
theorem c3_provision_idempotent (env1 env2 : ProvisionEnv) (db : ProvisionDb)
    (req : ProvisionRequest) :
    ∃ u : String,
      respSimUserId (provisionPOST env1 db req).1 = some u ∧
      ∃ d : UserProvisioningResponseData,
        (provisionPOST env2 (provisionPOST env1 db req).2 req).1 =
          singleResponse d 409 ∧
        d.alreadyExisted = some true ∧
        d.simUserId = u ∧
        (provisionPOST env2 (provisionPOST env1 db req).2 req).2 =
          (provisionPOST env1 db req).2 := by
  obtain ⟨u, hresp, v, hlink, hvu⟩ :=
    provisionPOST_links_response_user env1 db req
  have h2 := provisionPOST_already_linked env2 (provisionPOST env1 db req).2
    req v hlink
  refine ⟨u, hresp,
    { simUserId := v.userId, canvasUserId := req.canvasUserId
      email := v.email, createdAt := v.createdAt, linkId := v.linkId
      alreadyExisted := some true }, ?_, rfl, hvu, ?_⟩
  · rw [h2]
  · rw [h2]

/-- Helper: a row-updating map that preserves execution ids preserves row
existence. -/
theorem hasExecRow_map_preserving (store : List LogRow) (f : LogRow → LogRow)
    (e : String) (hf : ∀ r, (f r).executionId = r.executionId)
    (h : hasExecRow store e = true) : hasExecRow (store.map f) e = true := by
  simp only [hasExecRow, List.find?_isSome, List.mem_map] at h ⊢
  obtain ⟨r, hr, hre⟩ := h
  exact ⟨f r, ⟨r, hr, rfl⟩, by simpa [hf] using hre⟩

/-- Helper: appending rows preserves row existence. -/
theorem hasExecRow_append (store rows : List LogRow) (e : String)
    (h : hasExecRow store e = true) : hasExecRow (store ++ rows) e = true := by
  simp only [hasExecRow] at h ⊢
  rw [List.find?_append]
  cases hf : store.find? (fun r => r.executionId = e) with
  | none => rw [hf] at h; simp at h
  | some r => rfl

/-- Helper: the terminal completion update preserves row existence. -/
theorem hasExecRow_logExecutionCompletion (store : List LogRow)
    (eid : String) (durationMs : Nat) (success : Bool) (output : Obj)
    (errorMsg : Option String) (usage : Usage) (requestData : RequestPayload)
    (responseBlockType : String) (completedAt : Nat) (e : String)
    (h : hasExecRow store e = true) :
    hasExecRow (logExecutionCompletion store eid durationMs success output
      errorMsg usage requestData responseBlockType completedAt) e = true := by
  unfold logExecutionCompletion
  refine hasExecRow_map_preserving store _ e (fun r => ?_) h
  by_cases hc : r.executionId = eid <;> simp [hc]

/-- Helper: the async-running update preserves row existence. -/
theorem hasExecRow_logExecutionRunning (store : List LogRow) (eid : String)
    (durationMs : Nat) (output : Obj) (usage : Usage)
    (requestData : RequestPayload) (responseBlockType : String)
    (progress : Option ℚ) (currentStep : Option String)
    (estimatedCompletionMs : Option ℚ) (e : String)
    (h : hasExecRow store e = true) :
    hasExecRow (logExecutionRunning store eid durationMs output usage
      requestData responseBlockType progress currentStep
      estimatedCompletionMs) e = true := by
  unfold logExecutionRunning
  refine hasExecRow_map_preserving store _ e (fun r => ?_) h
  by_cases hc : r.executionId = eid <;> simp [hc]

/-- Helper: the start-record insert preserves row existence. -/
theorem hasExecRow_logExecutionStart_preserve (store : List LogRow)
    (rowId eid workspaceId blockTypeVal : String) (blockVersion : Option String)
    (callerUserId : String)
    (callerWorkspaceId callerWorkflowId callerNodeId : Option String)
    (requestData : RequestPayload) (now : Nat) (e : String)
    (h : hasExecRow store e = true) :
    hasExecRow (logExecutionStart store rowId eid workspaceId blockTypeVal
      blockVersion callerUserId callerWorkspaceId callerWorkflowId
      callerNodeId requestData now) e = true := by
  unfold logExecutionStart
  split
  · exact h
  · exact hasExecRow_append _ _ _ h

/-- Helper: after the start-record insert, a row for the inserted execution
id exists. -/
theorem hasExecRow_logExecutionStart_self (store : List LogRow)
    (rowId eid workspaceId blockTypeVal : String) (blockVersion : Option String)
    (callerUserId : String)
    (callerWorkspaceId callerWorkflowId callerNodeId : Option String)
    (requestData : RequestPayload) (now : Nat) :
    hasExecRow (logExecutionStart store rowId eid workspaceId blockTypeVal
      blockVersion callerUserId callerWorkspaceId callerWorkflowId
      callerNodeId requestData now) eid = true := by
  unfold logExecutionStart
  split
  · rename_i hsome
    exact hsome
  · rename_i hnone
    simp only [hasExecRow, List.find?_append]
    cases hf : store.find? (fun r => r.executionId = eid) with
    | some r => rfl
    | none => simp

/-- Helper: the retry adapter always performs at least one attempt. -/
theorem executeWithRetry_pos (attempts : AttemptOracle) (t : Nat)
    (retry : Bool) : 0 < (executeWithRetry attempts t retry).2 := by
  unfold executeWithRetry
  cases attempts 0 with
  | res r =>
    by_cases hb : (retry && !r.success) = true
    · simp only [hb, if_true]
      cases attempts 1 with
      | res r2 => simp
      | exn e =>
        cases attempts 2 with
        | res r3 => simp
        | exn e3 => simp
    · simp only [Bool.not_eq_true] at hb
      simp [hb]
  | exn e =>
    cases retry with
    | true =>
      cases attempts 1 with
      | res r2 => simp
      | exn e2 => simp
    | false => simp

/-- Helper: ghost observations of the execution phase — it reports the
execution id it was given, performs at least one engine attempt, and only
updates existing rows (preserving row existence). -/
theorem runBlockExecution_ghost (env : ExecEnv) (store1 : List LogRow)
    (req : ExecRequest) (executionId : String) (blockConfig : BlockConfig)
    (requestPayload : RequestPayload) (e : String) :
    (runBlockExecution env store1 req executionId blockConfig
      requestPayload).executionIdUsed = some executionId ∧
    0 < (runBlockExecution env store1 req executionId blockConfig
      requestPayload).attemptsMade ∧
    (hasExecRow store1 e = true →
      hasExecRow (runBlockExecution env store1 req executionId blockConfig
        requestPayload).store e = true) := by
  unfold runBlockExecution
  dsimp only
  cases hrun : executeWithRetry env.attempts
      ((req.options.bind (fun o => o.timeout)).getD DEFAULT_EXECUTION_TIMEOUT_MS)
      ((req.options.bind (fun o => o.retryOnFailure)).getD false) with
  | mk outcome n =>
    have hpos : 0 < n := by
      have := executeWithRetry_pos env.attempts
        ((req.options.bind (fun o => o.timeout)).getD DEFAULT_EXECUTION_TIMEOUT_MS)
        ((req.options.bind (fun o => o.retryOnFailure)).getD false)
      rw [hrun] at this
      exact this
    dsimp only
    cases outcome with
    | error msg =>
      dsimp only
      refine ⟨?_, ?_, fun h => ?_⟩
      · rw [apply_ite PostOutcome.executionIdUsed]
        dsimp only
        rw [ite_self]
      · rw [apply_ite PostOutcome.attemptsMade]
        dsimp only
        rw [ite_self]
        exact hpos
      · rw [apply_ite PostOutcome.store]
        dsimp only
        rw [ite_self]
        by_cases hw : executionId ≠ "" ∧ blockConfig.type ≠ ""
        · rw [if_pos hw]
          exact hasExecRow_logExecutionCompletion _ _ _ _ _ _ _ _ _ _ _ h
        · rw [if_neg hw]
          exact h
    | ok result =>
      dsimp only
      cases hasync : (if result.success = true then
          detectAsyncExecution result.output else none) with
      | some a =>
        exact ⟨rfl, hpos, fun h =>
          hasExecRow_logExecutionRunning _ _ _ _ _ _ _ _ _ _ _ h⟩
      | none =>
        dsimp only
        refine ⟨?_, ?_, fun h => ?_⟩
        · rw [apply_ite PostOutcome.executionIdUsed]
          dsimp only
          rw [ite_self]
        · rw [apply_ite PostOutcome.attemptsMade]
          dsimp only
          rw [ite_self]
          exact hpos
        · rw [apply_ite PostOutcome.store]
          dsimp only
          rw [ite_self]
          exact hasExecRow_logExecutionCompletion _ _ _ _ _ _ _ _ _ _ _ h

/-- Helper: ghost observations of the admitted flow — it reports the
execution id it was given; it preserves row existence; and if it performed
any engine attempt, a row for its execution id exists afterwards. -/
theorem postAfterAdmission_ghost (env : ExecEnv) (store : List LogRow)
    (req : ExecRequest) (svc : RouteServiceContext) (cu eid e : String) :
    (postAfterAdmission env store req svc cu eid).executionIdUsed = some eid ∧
    (hasExecRow store e = true →
      hasExecRow (postAfterAdmission env store req svc cu eid).store e = true) ∧
    (0 < (postAfterAdmission env store req svc cu eid).attemptsMade →
      hasExecRow (postAfterAdmission env store req svc cu eid).store eid
        = true) := by
  unfold postAfterAdmission
  cases hex : findExistingExecution store eid with
  | some view =>
    exact ⟨rfl, fun h => h, fun hpos => absurd hpos (Nat.lt_irrefl 0)⟩
  | none =>
    dsimp only
    cases hrb : resolveBlock env.getBlock env.getBlockByToolName req.blockType with
    | none =>
      exact ⟨rfl, fun h => h, fun hpos => absurd hpos (Nat.lt_irrefl 0)⟩
    | some pair =>
      obtain ⟨blockConfig, presetToolId⟩ := pair
      dsimp only
      cases htool : presetToolId.or (resolveToolId blockConfig
          (applyBlockTransforms env.jsonParse (env.inputSchemaProps blockConfig)
            blockConfig ((req.params.or req.inputs).getD []))) with
      | none =>
        exact ⟨rfl, fun h => h, fun hpos => absurd hpos (Nat.lt_irrefl 0)⟩
      | some toolId =>
        dsimp only
        cases huser : findLinkedSimUser env.accounts cu with
        | none =>
          exact ⟨rfl, fun h => h, fun hpos => absurd hpos (Nat.lt_irrefl 0)⟩
        | some simUserId =>
          dsimp only
          cases hws : findUserWorkspace env.workspaces simUserId with
          | none =>
            exact ⟨rfl, fun h => h, fun hpos => absurd hpos (Nat.lt_irrefl 0)⟩
          | some workspaceId =>
            dsimp only
            exact ⟨(runBlockExecution_ghost env _ req eid blockConfig _ e).1,
              fun h => (runBlockExecution_ghost env _ req eid blockConfig _ e).2.2
                (hasExecRow_logExecutionStart_preserve _ _ _ _ _ _ _ _ _ _ _ _ _ h),
              fun _ => (runBlockExecution_ghost env _ req eid blockConfig _ eid).2.2
                (hasExecRow_logExecutionStart_self _ _ _ _ _ _ _ _ _ _ _ _)⟩

/-- Helper: ghost observations of the whole execute handler — a request
whose settled execution id has a stored record replays it without touching
the store or the engine; row existence is preserved; an invoking request
leaves a record under its execution id. -/
theorem blocksExecutePOST_ghost (env : ExecEnv) (store : List LogRow)
    (req : ExecRequest) (svc : RouteServiceContext) (e : String) :
    ((blocksExecutePOST env store req svc).executionIdUsed = some e →
      hasExecRow store e = true →
        (blocksExecutePOST env store req svc).attemptsMade = 0 ∧
        (blocksExecutePOST env store req svc).store = store ∧
        ∃ view, findExistingExecution store e = some view ∧
          (blocksExecutePOST env store req svc).response =
            buildExecutionStatusResponse view e) ∧
    (hasExecRow store e = true →
      hasExecRow (blocksExecutePOST env store req svc).store e = true) ∧
    ((blocksExecutePOST env store req svc).executionIdUsed = some e →
      0 < (blocksExecutePOST env store req svc).attemptsMade →
      hasExecRow (blocksExecutePOST env store req svc).store e = true) := by
  unfold blocksExecutePOST
  by_cases hparse : execParseFails req = true
  · rw [if_pos hparse]
    exact ⟨fun hused => Option.noConfusion hused, fun h => h,
      fun hused => Option.noConfusion hused⟩
  · rw [if_neg hparse]
    cases hcu : (match svc.canvasUserId with
        | some u => if u = "" then none else some u
        | none => none) with
    | none =>
      dsimp only
      exact ⟨fun hused => Option.noConfusion hused, fun h => h,
        fun hused => Option.noConfusion hused⟩
    | some cu =>
      dsimp only
      obtain ⟨g1, g2, g3⟩ := postAfterAdmission_ghost env store req svc cu
        (((req.context.bind (fun c => c.executionId)).or
          svc.idempotencyKey).getD env.freshUuid) e
      refine ⟨?_, g2, ?_⟩
      · intro hused hrow
        have heq : (((req.context.bind (fun c => c.executionId)).or
            svc.idempotencyKey).getD env.freshUuid) = e := by
          rw [g1] at hused
          exact Option.some.inj hused
        rw [heq] at g1 ⊢
        have hview : ∃ view, findExistingExecution store e = some view := by
          simp only [hasExecRow] at hrow
          cases hf : store.find? (fun r => r.executionId = e) with
          | none => rw [hf] at hrow; simp at hrow
          | some r =>
            exact ⟨{ executionId := r.executionId, startedAt := r.startedAt
                     endedAt := r.endedAt, totalDurationMs := r.totalDurationMs
                     level := r.level, executionData := r.executionData },
              by simp [findExistingExecution, hf]⟩
        obtain ⟨view, hv⟩ := hview
        refine ⟨?_, ?_, view, hv, ?_⟩ <;>
          simp only [postAfterAdmission, hv]
      · intro hused hpos
        have heq : (((req.context.bind (fun c => c.executionId)).or
            svc.idempotencyKey).getD env.freshUuid) = e := by
          rw [g1] at hused
          exact Option.some.inj hused
        rw [heq] at g3 hpos ⊢
        exact g3 hpos

/-- Helper: once a record exists for an execution id, no later request in a
sequence invokes the engine under that id. -/
theorem invokerCount_zero_of_hasRow (e : String)
    (inputs : List (ExecEnv × ExecRequest × RouteServiceContext)) :
    ∀ store, hasExecRow store e = true →
      invokerCount e (processRequests store inputs).2 = 0 := by
  induction inputs with
  | nil => intro store _; rfl
  | cons head rest ih =>
    obtain ⟨env, req, svc⟩ := head
    intro store h
    have g := blocksExecutePOST_ghost env store req svc e
    have hpred : ((blocksExecutePOST env store req svc).executionIdUsed
        == some e &&
        decide (0 < (blocksExecutePOST env store req svc).attemptsMade))
        = false := by
      by_cases hused :
          (blocksExecutePOST env store req svc).executionIdUsed = some e
      · have hz := (g.1 hused h).1
        simp [hz]
      · simp [hused]
    simp only [processRequests, invokerCount, List.filter_cons, hpred,
      Bool.false_eq_true, if_false]
    exact ih (blocksExecutePOST env store req svc).store (g.2.1 h)

/-- Helper: across any sequence of requests, at most one request invokes
the Execution Engine Adapter under a given execution id. -/
theorem invokerCount_le_one_aux (e : String)
    (inputs : List (ExecEnv × ExecRequest × RouteServiceContext)) :
    ∀ store, invokerCount e (processRequests store inputs).2 ≤ 1 := by
  induction inputs with
  | nil => intro store; exact Nat.zero_le 1
  | cons head rest ih =>
    obtain ⟨env, req, svc⟩ := head
    intro store
    have g := blocksExecutePOST_ghost env store req svc e
    by_cases hpred : ((blocksExecutePOST env store req svc).executionIdUsed
        == some e &&
        decide (0 < (blocksExecutePOST env store req svc).attemptsMade))
        = true
    · have hsplit := hpred
      rw [Bool.and_eq_true] at hsplit
      have hused : (blocksExecutePOST env store req svc).executionIdUsed
          = some e := eq_of_beq hsplit.1
      have hposat : 0 < (blocksExecutePOST env store req svc).attemptsMade :=
        of_decide_eq_true hsplit.2
      have hrow := g.2.2 hused hposat
      have h0 := invokerCount_zero_of_hasRow e rest
        (blocksExecutePOST env store req svc).store hrow
      simp only [processRequests, invokerCount, List.filter_cons, hpred,
        if_true, List.length_cons]
      simp only [invokerCount] at h0
      omega
    · have hf : ((blocksExecutePOST env store req svc).executionIdUsed
          == some e &&
          decide (0 < (blocksExecutePOST env store req svc).attemptsMade))
          = false := by
        cases hb : ((blocksExecutePOST env store req svc).executionIdUsed
            == some e &&
            decide (0 < (blocksExecutePOST env store req svc).attemptsMade)) with
        | true => exact absurd hb hpred
        | false => rfl
      simp only [processRequests, invokerCount, List.filter_cons, hf,
        Bool.false_eq_true, if_false]
      have := ih (blocksExecutePOST env store req svc).store
      simpa [invokerCount] using this

/-- Helper: when body validation passes and a (truthy) external user id is
present, the handler settles its execution id by the fallback chain
caller-supplied id, idempotency key, fresh UUID. -/
theorem blocksExecutePOST_usedId (env : ExecEnv) (store : List LogRow)
    (req : ExecRequest) (svc : RouteServiceContext) (cu : String)
    (hparse : execParseFails req = false)
    (hcu : (match svc.canvasUserId with
        | some u => if u = "" then none else some u
        | none => none) = some cu) :
    (blocksExecutePOST env store req svc).executionIdUsed =
      some (((req.context.bind (fun c => c.executionId)).or
        svc.idempotencyKey).getD env.freshUuid) := by
  unfold blocksExecutePOST
  rw [if_neg (by simp [hparse])]
  rw [hcu]
  dsimp only
  exact (postAfterAdmission_ghost env store req svc cu _ "x").1

/-- C1: a request whose settled execution id has a stored record returns a
response derived from that record (`buildExecutionStatusResponse`: a 202
running payload when the record has no end timestamp, a 200 replay of the
stored terminal result otherwise), performs no engine attempt, and leaves
the store unchanged; consequently, across any sequence of requests at most
one request ever invokes the underlying action for a given execution id. -/
theorem c1_idempotent_replay_at_most_one_invocation :
    (∀ (env : ExecEnv) (store : List LogRow) (req : ExecRequest)
        (svc : RouteServiceContext) (e : String),
      (blocksExecutePOST env store req svc).executionIdUsed = some e →
      hasExecRow store e = true →
        (blocksExecutePOST env store req svc).attemptsMade = 0 ∧
        (blocksExecutePOST env store req svc).store = store ∧
        ∃ view, findExistingExecution store e = some view ∧
          (blocksExecutePOST env store req svc).response =
            buildExecutionStatusResponse view e) ∧
    (∀ (e : String)
        (inputs : List (ExecEnv × ExecRequest × RouteServiceContext))
        (store : List LogRow),
      invokerCount e (processRequests store inputs).2 ≤ 1) :=
  ⟨fun env store req svc e hused hrow =>
      (blocksExecutePOST_ghost env store req svc e).1 hused hrow,
    fun e inputs store => invokerCount_le_one_aux e inputs store⟩

/-- Witness for C1: against a store holding a running record for "e1", a
request targeting "e1" replays the stored record without invoking the
engine, and a two-request sequence performs at most one invocation. -/
theorem c1_idempotent_replay_at_most_one_invocation_witness :
    (blocksExecutePOST c2Env [c1Row] c2Req c2Svc).executionIdUsed =
      some "e1" ∧
    hasExecRow [c1Row] "e1" = true ∧
    ((blocksExecutePOST c2Env [c1Row] c2Req c2Svc).attemptsMade = 0 ∧
      (blocksExecutePOST c2Env [c1Row] c2Req c2Svc).store = [c1Row] ∧
      ∃ view, findExistingExecution [c1Row] "e1" = some view ∧
        (blocksExecutePOST c2Env [c1Row] c2Req c2Svc).response =
          buildExecutionStatusResponse view "e1") ∧
    invokerCount "e1"
      (processRequests [c1Row] [(c2Env, c2Req, c2Svc), (c2Env, c2Req, c2Svc)]).2
      ≤ 1 :=
  ⟨rfl, rfl,
    c1_idempotent_replay_at_most_one_invocation.1 c2Env [c1Row] c2Req c2Svc
      "e1" rfl rfl,
    c1_idempotent_replay_at_most_one_invocation.2 "e1"
      [(c2Env, c2Req, c2Svc), (c2Env, c2Req, c2Svc)] [c1Row]⟩

/-- C9: the execution id is settled by the fixed fallback chain
caller-supplied context execution id, else the idempotency-key header
value, else a fresh UUID; so an idempotency key alone makes two requests
share one execution record: both settle on the key, and if the first
invoked the engine the second performs no attempt. -/
theorem c9_execution_id_fallback_chain :
    (∀ (env : ExecEnv) (store : List LogRow) (req : ExecRequest)
        (svc : RouteServiceContext) (cu : String),
      execParseFails req = false →
      (match svc.canvasUserId with
       | some u => if u = "" then none else some u
       | none => none) = some cu →
      (blocksExecutePOST env store req svc).executionIdUsed =
        some (((req.context.bind (fun c => c.executionId)).or
          svc.idempotencyKey).getD env.freshUuid)) ∧
    (∀ (env1 env2 : ExecEnv) (store : List LogRow) (req : ExecRequest)
        (svc : RouteServiceContext) (cu k : String),
      execParseFails req = false →
      (match svc.canvasUserId with
       | some u => if u = "" then none else some u
       | none => none) = some cu →
      req.context.bind (fun c => c.executionId) = none →
      svc.idempotencyKey = some k →
        (blocksExecutePOST env1 store req svc).executionIdUsed = some k ∧
        (blocksExecutePOST env2 (blocksExecutePOST env1 store req svc).store
          req svc).executionIdUsed = some k ∧
        (0 < (blocksExecutePOST env1 store req svc).attemptsMade →
          (blocksExecutePOST env2 (blocksExecutePOST env1 store req svc).store
            req svc).attemptsMade = 0)) := by
  constructor
  · intro env store req svc cu hparse hcu
    exact blocksExecutePOST_usedId env store req svc cu hparse hcu
  · intro env1 env2 store req svc cu k hparse hcu hctx hkey
    have hchain1 : (((req.context.bind (fun c => c.executionId)).or
        svc.idempotencyKey).getD env1.freshUuid) = k := by
      rw [hctx, hkey]
      rfl
    have hchain2 : (((req.context.bind (fun c => c.executionId)).or
        svc.idempotencyKey).getD env2.freshUuid) = k := by
      rw [hctx, hkey]
      rfl
    have hused1 : (blocksExecutePOST env1 store req svc).executionIdUsed =
        some k := by
      rw [blocksExecutePOST_usedId env1 store req svc cu hparse hcu, hchain1]
    have hused2 : (blocksExecutePOST env2
        (blocksExecutePOST env1 store req svc).store req svc).executionIdUsed =
        some k := by
      rw [blocksExecutePOST_usedId env2 _ req svc cu hparse hcu, hchain2]
    refine ⟨hused1, hused2, fun hinv => ?_⟩
    have hrow := (blocksExecutePOST_ghost env1 store req svc k).2.2 hused1 hinv
    exact ((blocksExecutePOST_ghost env2
      (blocksExecutePOST env1 store req svc).store req svc k).1 hused2 hrow).1

/-- Witness for C9: with only the idempotency key "idem-key" supplied, a
request settles its execution id on the key, irrespective of the fresh
UUID, and after a first invoking request a second one performs no attempt. -/
theorem c9_execution_id_fallback_chain_witness :
    execParseFails c9Req = false ∧
    (blocksExecutePOST c9Env [] c9Req c9Svc).executionIdUsed =
      some "idem-key" ∧
    (blocksExecutePOST c9EnvB (blocksExecutePOST c9Env [] c9Req c9Svc).store
      c9Req c9Svc).executionIdUsed = some "idem-key" ∧
    (0 < (blocksExecutePOST c9Env [] c9Req c9Svc).attemptsMade →
      (blocksExecutePOST c9EnvB (blocksExecutePOST c9Env [] c9Req c9Svc).store
        c9Req c9Svc).attemptsMade = 0) :=
  ⟨rfl,
    (c9_execution_id_fallback_chain.2 c9Env c9EnvB [] c9Req c9Svc "cu-1"
      "idem-key" rfl rfl rfl rfl).1,
    (c9_execution_id_fallback_chain.2 c9Env c9EnvB [] c9Req c9Svc "cu-1"
      "idem-key" rfl rfl rfl rfl).2.1,
    (c9_execution_id_fallback_chain.2 c9Env c9EnvB [] c9Req c9Svc "cu-1"
      "idem-key" rfl rfl rfl rfl).2.2⟩

/-- Counterexample to C2 as stated: on a concrete run whose only engine
attempt rejects with the timeout marker, the caller receives the terminal
TIMEOUT error AND the stored record is marked terminal (end timestamp set,
severity level "error") by the timeout-handling catch arm — the running
record is not left untouched. -/
theorem c2_counterexample_timeout_writes_terminal :
    (blocksExecutePOST c2Env [] c2Req c2Svc).response =
      errorResponse "TIMEOUT" "Execution exceeded timeout" 504
        (some (.obj [("executionId", .str "e1"), ("durationMs", .num 2)]))
        none ∧
    ((blocksExecutePOST c2Env [] c2Req c2Svc).store.find?
      (fun r => r.executionId = "e1")).map (fun r => (r.endedAt, r.level)) =
      some (some 5, "error") :=
  ⟨rfl, rfl⟩

/-- C2 amended: when the execution phase ends with an EXECUTION_TIMEOUT
rejection, the caller receives the terminal TIMEOUT error (504) and the
handler's catch arm itself marks the stored record terminal via
`logExecutionCompletion` (failed, with the timeout message) — the timeout
arm does write to the execution record. -/
theorem c2_timeout_marks_record_terminal (env : ExecEnv)
    (store1 : List LogRow) (req : ExecRequest) (executionId : String)
    (blockConfig : BlockConfig) (requestPayload : RequestPayload) (n : Nat)
    (hid : executionId ≠ "") (hbt : blockConfig.type ≠ "")
    (hrun : executeWithRetry env.attempts
      ((req.options.bind (fun o => o.timeout)).getD
        DEFAULT_EXECUTION_TIMEOUT_MS)
      ((req.options.bind (fun o => o.retryOnFailure)).getD false) =
        (Except.error "EXECUTION_TIMEOUT", n)) :
    (runBlockExecution env store1 req executionId blockConfig
      requestPayload).response =
      errorResponse "TIMEOUT" "Execution exceeded timeout" 504
        (some (.obj [("executionId", .str executionId),
          ("durationMs", .num ((env.endTime - env.startTime : Nat) : ℚ))]))
        none ∧
    (runBlockExecution env store1 req executionId blockConfig
      requestPayload).store =
      logExecutionCompletion store1 executionId (env.endTime - env.startTime)
        false [] (some "EXECUTION_TIMEOUT")
        { tokensUsed := none, apiCallsMade := none, creditsConsumed := none }
        requestPayload blockConfig.type env.endTime := by
  unfold runBlockExecution
  dsimp only
  rw [hrun]
  dsimp only
  rw [if_pos (And.intro hid hbt)]
  exact ⟨rfl, rfl⟩

/-- Witness for C2 amended: the concrete timed-out run returns TIMEOUT and
its store equals the terminal completion write. -/
theorem c2_timeout_marks_record_terminal_witness :
    ("e1" : String) ≠ "" ∧
    (runBlockExecution c2Env [c1Row] c2Req "e1" gmailBlock
      { requestId := "r", idempotencyKey := none, blockType := "gmail"
        toolId := "gmail_send", params := [] }).response =
      errorResponse "TIMEOUT" "Execution exceeded timeout" 504
        (some (.obj [("executionId", .str "e1"), ("durationMs", .num 2)]))
        none :=
  ⟨by decide,
    (c2_timeout_marks_record_terminal c2Env [c1Row] c2Req "e1" gmailBlock _ 1
      (by decide) (by decide) rfl).1⟩

/-- Counterexample to C6 as stated: with auto-retry requested, a first
attempt that reports failure followed by a second attempt that throws leads
to a third attempt — not "exactly one additional attempt" — and the result
returned is the third attempt's. -/
theorem c6_counterexample_three_attempts :
    c6Attempts 0 =
      AttemptOutcome.res { success := false, output := none
                           error := some "boom" } ∧
    (executeWithRetry c6Attempts 30000 true).2 = 3 ∧
    ¬ ((executeWithRetry c6Attempts 30000 true).2 = 2) ∧
    (executeWithRetry c6Attempts 30000 true).1 =
      Except.ok { success := true, output := some [("ok", JsonVal.bool true)]
                  error := none } :=
  ⟨rfl, rfl, by decide, rfl⟩

/-- C6 amended: without auto-retry exactly one attempt is made and its
outcome is returned; with auto-retry, a successful first attempt is
returned after one attempt; a reported first failure triggers a second
attempt whose result is returned unless that second attempt throws, in
which case a third attempt decides the outcome; a thrown first attempt
triggers exactly one additional attempt whose outcome is returned. -/
theorem c6_retry_attempt_characterization (attempts : AttemptOracle)
    (t : Nat) :
    (executeWithRetry attempts t false =
      (match attempts 0 with
       | .res r => (Except.ok r, 1)
       | .exn e => (Except.error e, 1))) ∧
    (∀ r, attempts 0 = .res r → r.success = true →
      executeWithRetry attempts t true = (Except.ok r, 1)) ∧
    (∀ r r2, attempts 0 = .res r → r.success = false →
      attempts 1 = .res r2 →
      executeWithRetry attempts t true = (Except.ok r2, 2)) ∧
    (∀ r e2, attempts 0 = .res r → r.success = false →
      attempts 1 = .exn e2 →
      executeWithRetry attempts t true =
        (match attempts 2 with
         | .res r3 => (Except.ok r3, 3)
         | .exn e3 => (Except.error e3, 3))) ∧
    (∀ e, attempts 0 = .exn e →
      executeWithRetry attempts t true =
        (match attempts 1 with
         | .res r2 => (Except.ok r2, 2)
         | .exn e2 => (Except.error e2, 2))) := by
  refine ⟨?_, ?_, ?_, ?_, ?_⟩
  · unfold executeWithRetry
    cases h0 : attempts 0 with
    | res r => simp
    | exn e => simp
  · intro r h0 hs
    unfold executeWithRetry
    rw [h0]
    simp [hs]
  · intro r r2 h0 hs h1
    unfold executeWithRetry
    rw [h0]
    simp [hs, h1]
  · intro r e2 h0 hs h1
    unfold executeWithRetry
    rw [h0]
    simp [hs, h1]
  · intro e h0
    unfold executeWithRetry
    rw [h0]
    simp

/-- Witness for C6 amended: the reported-failure-then-throw path performs a
third attempt whose result is returned. -/
theorem c6_retry_attempt_characterization_witness :
    c6Attempts 0 =
      AttemptOutcome.res { success := false, output := none
                           error := some "boom" } ∧
    c6Attempts 1 = AttemptOutcome.exn "crash" ∧
    executeWithRetry c6Attempts 30000 true =
      (match c6Attempts 2 with
       | .res r3 => (Except.ok r3, 3)
       | .exn e3 => (Except.error e3, 3)) :=
  ⟨rfl, rfl,
    (c6_retry_attempt_characterization c6Attempts 30000).2.2.2.1
      { success := false, output := none, error := some "boom" } "crash"
      rfl rfl rfl⟩

/-- C10: replaying a stored terminal record whose severity level is "error"
yields HTTP 200 with a success envelope whose payload status is "failed"
(not an error envelope), and the status-poll endpoint returns the very same
payload in a 200 success envelope. -/
theorem c10_failed_replay_success_envelope (view : ExecutionRecordView)
    (store : List LogRow) (e : String) (t : Nat)
    (hend : view.endedAt = some t) (hlvl : view.level = "error")
    (hfind : findExistingExecution store e = some view) :
    ∃ d : BlockExecutionResponseData,
      buildExecutionStatusResponse view e = ApiResponse.success 200 d ∧
      d.status = "failed" ∧
      executionStatusGET store e = ApiResponse.success 200 d := by
  simp only [buildExecutionStatusResponse, executionStatusGET, hfind, hend,
    hlvl, singleResponse]
  exact ⟨_, rfl, by simp, rfl⟩

/-- Witness for C10: a concrete stored failed record replays as a 200
success envelope with payload status "failed", identically on both
endpoints. -/
theorem c10_failed_replay_success_envelope_witness :
    c10View.endedAt = some 5 ∧
    c10View.level = "error" ∧
    findExistingExecution [c10Row] "e10" = some c10View ∧
    ∃ d : BlockExecutionResponseData,
      buildExecutionStatusResponse c10View "e10" = ApiResponse.success 200 d ∧
      d.status = "failed" ∧
      executionStatusGET [c10Row] "e10" = ApiResponse.success 200 d :=
  ⟨rfl, rfl, rfl,
    c10_failed_replay_success_envelope c10View [c10Row] "e10" 5 rfl rfl rfl⟩

/-- Counterexample to C7 as stated: the output with status "in-progress" is
classified as an in-flight asynchronous job although its status matches
none of the six enumerated markers (case-insensitively) and it carries no
job/task identifier — so the six-marker biconditional fails. -/
theorem c7_counterexample_six_markers :
    (detectAsyncExecution (some [("status", JsonVal.str "in-progress")])).isSome
      = true ∧
    statusValueOf [("status", JsonVal.str "in-progress")] = some "in-progress" ∧
    ¬ (jsToLower "in-progress" ∈
        ["queued", "running", "processing", "pending", "in_progress",
         "started"]) ∧
    jobIdOf [("status", JsonVal.str "in-progress")] = none :=
  ⟨rfl, rfl, by decide, rfl⟩

/-- C7 amended: an action output is classified as an in-flight asynchronous
job iff its status/state field matches (case-insensitively) one of the
seven markers "queued", "running", "processing", "pending", "in_progress",
"in-progress", "started", or a job/task identifier co-occurs with a
human-readable message matching the async-sounding pattern. -/
theorem c7_async_detection_vocabulary (output : Option Obj) :
    ((detectAsyncExecution output).isSome = true ↔
      ∃ o, output = some o ∧
        (isRunningStatusOf o = true ∨
          ((jobIdOf o).isSome = true ∧ hasAsyncMessageOf o = true))) ∧
    (∀ o : Obj, isRunningStatusOf o = true ↔
      ∃ s, normalizedStatusOf o = some s ∧
        s ∈ ["queued", "running", "processing", "pending", "in_progress",
             "in-progress", "started"]) := by
  constructor
  · cases output with
    | none => simp [detectAsyncExecution]
    | some o =>
      simp only [detectAsyncExecution]
      by_cases h : ¬ (isRunningStatusOf o = true) ∧
          ¬ ((jobIdOf o).isSome = true ∧ hasAsyncMessageOf o = true)
      · rw [if_pos h]
        simp only [Option.isSome_none, Bool.false_eq_true, false_iff, not_exists]
        rintro o' ⟨ho', hcond⟩
        cases Option.some.inj ho'
        tauto
      · rw [if_neg h]
        simp only [Option.isSome_some, true_iff]
        exact ⟨o, rfl, by tauto⟩
  · intro o
    unfold isRunningStatusOf
    cases hs : normalizedStatusOf o with
    | none => simp
    | some s =>
      simp only [ASYNC_STATUS_VALUES]
      constructor
      · intro hmem
        exact ⟨s, rfl, by simpa [List.contains] using hmem⟩
      · rintro ⟨s', hs', hmem⟩
        cases Option.some.inj hs'
        simpa [List.contains] using hmem

/-- Witness for C8: provisioning `jane.q.doe@example.com` with no name on a
fresh store creates the user named "Jane Q Doe". -/
theorem c8_derived_name_from_email_witness :
    c8Req.name = none ∧
    findExistingCanvasLink emptyProvisionDb c8Req.canvasUserId = none ∧
    findUserByEmail emptyProvisionDb c8Req.email = none ∧
    deriveNameFromEmail "jane.q.doe@example.com" = "Jane Q Doe" ∧
    (∃ u : UserRow,
      (provisionPOST c8Env emptyProvisionDb c8Req).2.users = [] ++ [u] ∧
        u.name = deriveNameFromEmail c8Req.email) :=
  ⟨rfl, rfl, rfl, rfl,
    (c8_derived_name_from_email c8Env emptyProvisionDb c8Req rfl rfl rfl).1⟩

end Canvas
